import Mathlib

/-!
Shallow embedding of the catalystwan-sdk UX1→UX2 configuration-migration
core: the UC Voice feature-profile builder with its reference resolver
(`api/builders/feature_profiles/uc_voice.py`), the service parcel pusher
(`utils/config_migration/creators/strategy/parcels.py`), the device-template
flattening and the `transform` pipeline
(`models/configuration/config_migration.py`, `workflows/config_migration.py`),
and the push-report success-rate computation.

Vendor identifiers (UUID objects) are modelled as natural numbers; the
syntactic UUID-string validation performed by `is_uuid` is modelled after
CPython's `uuid.UUID(hex=...)` constructor, which normalizes the string and
requires 32 hexadecimal digits.
-/

/-- Value of one hexadecimal digit character, if the character is one. -/
def hexDigitVal (c : Char) : Option Nat :=
  if 48 ≤ c.toNat ∧ c.toNat ≤ 57 then some (c.toNat - 48)
  else if 97 ≤ c.toNat ∧ c.toNat ≤ 102 then some (c.toNat - 87)
  else if 65 ≤ c.toNat ∧ c.toNat ≤ 70 then some (c.toNat - 55)
  else none

/-- Value of a big-endian hexadecimal digit string; `none` if any character
is not a hexadecimal digit. -/
def hexListVal : List Char → Option Nat
  | [] => some 0
  | c :: rest =>
    match hexDigitVal c, hexListVal rest with
    | some d, some v => some (d * 16 ^ rest.length + v)
    | _, _ => none

/-- The opening curly brace character. -/
def lbraceChar : Char := Char.ofNat 123

/-- The closing curly brace character. -/
def rbraceChar : Char := Char.ofNat 125

/-- Python `str.strip` with a two-brace chars argument: removes leading and
trailing curly-brace characters. -/
def stripBraceChars (cs : List Char) : List Char :=
  ((cs.dropWhile fun c => c = lbraceChar ∨ c = rbraceChar).reverse.dropWhile
    fun c => c = lbraceChar ∨ c = rbraceChar).reverse

/-- Python `str.replace("urn:", "")`: one left-to-right pass removing
every occurrence of the pattern. -/
def removeUrnPat : List Char → List Char
  | 'u' :: 'r' :: 'n' :: ':' :: rest => removeUrnPat rest
  | c :: rest => c :: removeUrnPat rest
  | [] => []

/-- Python `str.replace("uuid:", "")`: one left-to-right pass removing
every occurrence of the pattern. -/
def removeUuidPat : List Char → List Char
  | 'u' :: 'u' :: 'i' :: 'd' :: ':' :: rest => removeUuidPat rest
  | c :: rest => c :: removeUuidPat rest
  | [] => []

/-- CPython `uuid.UUID(hex=s)`: drop every occurrence of `urn:` and `uuid:`,
strip surrounding braces, drop hyphens, then require exactly 32 hexadecimal
digits; returns the 128-bit value on success. -/
def pyUUIDVal (s : String) : Option Nat :=
  let h1 := removeUuidPat (removeUrnPat s.data)
  let h2 := stripBraceChars h1
  let h3 := h2.filter fun c => c ≠ '-'
  if h3.length = 32 then hexListVal h3 else none

/-- `uc_voice.is_uuid`: `True` for `None` (and for actual UUID objects),
otherwise `True` exactly when the string parses as a UUID. -/
def is_uuid (v : Option String) : Bool :=
  match v with
  | none => true
  | some s => (pyUUIDVal s).isSome

/-- One hexadecimal digit character (lowercase). -/
def hexChar (n : Nat) : Char :=
  if n < 10 then Char.ofNat (48 + n) else Char.ofNat (87 + n)

/-- `str(UUID)` modulo hyphenation: the canonical 32-hex-digit rendering of a
128-bit identifier value. -/
def uuidStr (n : Nat) : String :=
  String.mk ((List.range 32).map fun i => hexChar (n / 16 ^ (31 - i) % 16))

/-- The kind of a `Global`/`Default`/`Variable` wrapper sitting in a
`RefIdItem.ref_id` slot. -/
inductive RefKind
  | globalK
  | defaultK
  | variableK
deriving DecidableEq, Repr

/-- A `ref_id` wrapper: its kind and its payload value (a parcel name or a
UUID string; `none` models a `None` payload). -/
structure RefId where
  kind : RefKind
  value : Option String
deriving DecidableEq, Repr

/-- `as_default(None)`: the explicit no-value sentinel `Default[None]`. -/
def as_default_none : RefId :=
  { kind := RefKind.defaultK, value := none }

/-- `RefIdItem` from `feature_profile/common.py`: a reference by identifier. -/
structure RefIdItem where
  ref_id : RefId
deriving DecidableEq, Repr

/-- An attribute of an association model: either a `RefIdItem` (the
`isinstance` check in `_populate_association` succeeds) or anything else. -/
inductive FieldAttr
  | refItem (item : RefIdItem)
  | plain
deriving DecidableEq, Repr

/-- One association model (e.g. an analog-interface `Association` entry): its
class name and the attributes that were explicitly set
(`model_fields_set`), in field order. -/
structure AModel where
  className : String
  fields : List (String × FieldAttr)
deriving DecidableEq, Repr

/-- `UcVoiceFeatureProfileBuilder.ASSOCIATON_FIELDS` (sic). -/
def ASSOCIATON_FIELDS : List String :=
  ["media_profile", "server_group", "translation_profile", "trunk_group",
   "voice_tenant", "supervisory_disconnect"]

/-- A warning emitted for an unresolved reference: the field name, the raw
value, and the owning model's class name. -/
structure UnresolvedWarning where
  fieldName : String
  rawValue : String
  modelName : String
deriving DecidableEq, Repr

/-- Resolution of a single association attribute, as in the body of the inner
loop of `_populate_association`: a `None` or syntactically valid UUID value
is left untouched; a resolvable name is rewritten to the created parcel's
identifier; an unresolvable name is rewritten to the `Default[None]`
sentinel with a warning. -/
def populateAttr (pushed : List (String × Nat)) (modelName fieldName : String)
    (a : FieldAttr) : FieldAttr × List UnresolvedWarning :=
  match a with
  | FieldAttr.plain => (a, [])
  | FieldAttr.refItem item =>
    match item.ref_id.value with
    | none => (a, [])
    | some s =>
      if is_uuid (some s) then (a, [])
      else
        match pushed.lookup s with
        | some u =>
          (FieldAttr.refItem ⟨{ item.ref_id with value := some (uuidStr u) }⟩, [])
        | none =>
          (FieldAttr.refItem ⟨as_default_none⟩,
           [⟨fieldName, s, modelName⟩])

/-- Resolution of one association model: every set field named in
`ASSOCIATON_FIELDS` is resolved through `populateAttr`; other fields are
untouched. -/
def populateModel (pushed : List (String × Nat)) (m : AModel) :
    AModel × List UnresolvedWarning :=
  let step := m.fields.map fun fa =>
    if ASSOCIATON_FIELDS.contains fa.1 then
      let r := populateAttr pushed m.className fa.1 fa.2
      ((fa.1, r.1), r.2)
    else (fa, [])
  ({ m with fields := step.map Prod.fst }, (step.map Prod.snd).flatten)

/-- `UcVoiceFeatureProfileBuilder._populate_association`: resolves every
model of an association list against the map of already-created associable
parcels, collecting unresolved-reference warnings; in-place mutation is
modelled by returning the updated list. -/
def populate_association (pushed : List (String × Nat)) (assoc : List AModel) :
    List AModel × List UnresolvedWarning :=
  let results := assoc.map (populateModel pushed)
  (results.map Prod.fst, (results.map Prod.snd).flatten)

/-- The concrete parcel classes of the UC Voice family; the first eight are
the `ASSOCIABLE_PARCELS` tuple, the next three are the
`ParcelWithAssociations` union members. -/
inductive UcParcelKind
  | mediaProfile
  | serverGroup
  | srst
  | translationProfile
  | translationRule
  | trunkGroup
  | voiceGlobal
  | voiceTenant
  | callRouting
  | digitalInterface
  | analogInterface
  | otherUc
deriving DecidableEq, Repr

/-- `isinstance(p, UcVoiceFeatureProfileBuilder.ASSOCIABLE_PARCELS)`. -/
def associableKind : UcParcelKind → Bool
  | UcParcelKind.mediaProfile => true
  | UcParcelKind.serverGroup => true
  | UcParcelKind.srst => true
  | UcParcelKind.translationProfile => true
  | UcParcelKind.translationRule => true
  | UcParcelKind.trunkGroup => true
  | UcParcelKind.voiceGlobal => true
  | UcParcelKind.voiceTenant => true
  | _ => false

/-- A UC Voice parcel: its class, name, the translation-profile call-type
references (meaningful on `TranslationProfileParcel`), and its association
list (meaningful on the `ParcelWithAssociations` classes). -/
structure UcParcel where
  kind : UcParcelKind
  parcel_name : String
  calledRef : Option Nat := none
  callingRef : Option Nat := none
  association : List AModel := []
deriving DecidableEq, Repr

/-- The two call types accepted by `set_ref_by_call_type`. -/
inductive CallType
  | called
  | calling
deriving DecidableEq, Repr

/-- Modelled from the spec: `TranslationProfileParcel.set_ref_by_call_type`
(defined in the uc_voice parcel schema module, which is not part of the
sources here) inserts a created translation rule's resolved identifier into
the composite profile parcel under the given call type. -/
def set_ref_by_call_type (p : UcParcel) (u : Nat) : CallType → UcParcel
  | CallType.called => { p with calledRef := some u }
  | CallType.calling => { p with callingRef := some u }

/-- The `TranslationProfile` dataclass of `uc_voice.py`: a composite profile
parcel with optional calling/called rule parcels. -/
structure TranslationProfile where
  tpp : UcParcel
  calling : Option UcParcel := none
  called : Option UcParcel := none
deriving DecidableEq, Repr

/-- The builder's accumulation state filled by the `add_*` methods. -/
structure UcVoiceBuilder where
  independent : List UcParcel := []
  translationProfiles : List TranslationProfile := []
  parcelsWithAssociations : List UcParcel := []
deriving DecidableEq, Repr

/-- `UcVoiceFeatureProfileBuilder.add_independent_parcel`. -/
def add_independent_parcel (b : UcVoiceBuilder) (p : UcParcel) : UcVoiceBuilder :=
  { b with independent := b.independent ++ [p] }

/-- `UcVoiceFeatureProfileBuilder.add_translation_profile`: raises
`ValueError` when neither a calling nor a called rule is given, otherwise
queues the composite. -/
def add_translation_profile (b : UcVoiceBuilder) (tpp : UcParcel)
    (calling called : Option UcParcel) : Except String UcVoiceBuilder :=
  if calling.isNone ∧ called.isNone then
    Except.error "There must be at least one translation rule to create a translation profile."
  else
    Except.ok { b with translationProfiles :=
      b.translationProfiles ++ [{ tpp := tpp, calling := calling, called := called }] }

/-- `UcVoiceFeatureProfileBuilder.add_parcel_with_associations`. -/
def add_parcel_with_associations (b : UcVoiceBuilder) (p : UcParcel) : UcVoiceBuilder :=
  { b with parcelsWithAssociations := b.parcelsWithAssociations ++ [p] }

/-- A remote creation call observed during `build`: the feature-profile
creation or one parcel-creation attempt carrying the payload as submitted. -/
inductive BuildEvent
  | createProfile (u : Nat)
  | createParcel (p : UcParcel)
deriving DecidableEq, Repr

/-- The mutable state threaded through `build`: the index of the next
parcel-creation call, the `_pushed_associable_parcels` name→identifier map
(most recent binding first), the build report's created/failed parcel names,
and the trace of creation calls issued so far. -/
structure BuildState where
  k : Nat
  pushed : List (String × Nat)
  created : List String
  failed : List String
  trace : List BuildEvent
deriving DecidableEq, Repr

/-- `UcVoiceFeatureProfileBuilder._create_parcel`: one creation attempt.
Modelled from the spec: the `handle_build_report` decorator (whose module is
not among the sources) catches a failed creation, records the parcel in the
build report's failed list and yields no identifier, while a successful
creation is recorded in the created list and yields the new identifier. The
remote system's reply to the `k`-th attempt is the oracle `api k`. -/
def create_parcel (api : Nat → Option Nat) (st : BuildState) (p : UcParcel) :
    BuildState × Option Nat :=
  let st' := { st with k := st.k + 1, trace := st.trace ++ [BuildEvent.createParcel p] }
  match api st.k with
  | some u => ({ st' with created := st'.created ++ [p.parcel_name] }, some u)
  | none => ({ st' with failed := st'.failed ++ [p.parcel_name] }, none)

/-- `UcVoiceFeatureProfileBuilder._create_translation_profile`: creates the
called rule, then the calling rule, inserting each successfully created
rule's identifier into the composite, then creates the composite itself. -/
def create_translation_profile (api : Nat → Option Nat) (st : BuildState)
    (tp : TranslationProfile) : BuildState × Option Nat :=
  let s1 :=
    match tp.called with
    | some r =>
      let c := create_parcel api st r
      match c.2 with
      | some u => (c.1, set_ref_by_call_type tp.tpp u CallType.called)
      | none => (c.1, tp.tpp)
    | none => (st, tp.tpp)
  let s2 :=
    match tp.calling with
    | some r =>
      let c := create_parcel api s1.1 r
      match c.2 with
      | some u => (c.1, set_ref_by_call_type s1.2 u CallType.calling)
      | none => (c.1, s1.2)
    | none => s1
  create_parcel api s2.1 s2.2

/-- The first loop of `build`: create every independent parcel, recording
associable ones in the pushed map. -/
def buildIndependentsLoop (api : Nat → Option Nat) :
    BuildState → List UcParcel → BuildState
  | st, [] => st
  | st, p :: rest =>
    let c := create_parcel api st p
    let st2 :=
      match c.2 with
      | some u =>
        if associableKind p.kind then
          { c.1 with pushed := (p.parcel_name, u) :: c.1.pushed }
        else c.1
      | none => c.1
    buildIndependentsLoop api st2 rest

/-- The second loop of `build`: create every translation-profile composite,
recording the composite in the pushed map. -/
def buildTpsLoop (api : Nat → Option Nat) :
    BuildState → List TranslationProfile → BuildState
  | st, [] => st
  | st, tp :: rest =>
    let c := create_translation_profile api st tp
    let st2 :=
      match c.2 with
      | some u => { c.1 with pushed := (tp.tpp.parcel_name, u) :: c.1.pushed }
      | none => c.1
    buildTpsLoop api st2 rest

/-- The association-resolution step applied to a parcel just before its
creation in the third loop of `build`: a parcel with an association list
has it resolved in place against the pushed map. -/
def resolvePwa (pushed : List (String × Nat)) (p : UcParcel) : UcParcel :=
  if p.association.isEmpty then p
  else { p with association := (populate_association pushed p.association).1 }

/-- The third loop of `build`: resolve each association-carrying parcel's
references against the pushed map, then create it. -/
def buildPwasLoop (api : Nat → Option Nat) :
    BuildState → List UcParcel → BuildState
  | st, [] => st
  | st, p :: rest =>
    buildPwasLoop api (create_parcel api st (resolvePwa st.pushed p)).1 rest

/-- `UcVoiceFeatureProfileBuilder.build`: creates the feature profile, then
the independent parcels, then the translation-profile composites, then the
association-carrying parcels. -/
def build (api : Nat → Option Nat) (profileUuid : Nat) (b : UcVoiceBuilder) :
    BuildState :=
  let st0 : BuildState :=
    { k := 0, pushed := [], created := [], failed := [],
      trace := [BuildEvent.createProfile profileUuid] }
  let st1 := buildIndependentsLoop api st0 b.independent
  let st2 := buildTpsLoop api st1 b.translationProfiles
  buildPwasLoop api st2 b.parcelsWithAssociations

/-- The service-parcel classes distinguished by `isinstance` in
`ServiceParcelPusher._resolve_and_add_parcel`; every other parcel class
carries its own `_get_parcel_type` literal. -/
inductive ServiceParcelClass
  | lanVpn
  | interfaceEthernet
  | interfaceGre
  | interfaceIpsec
  | interfaceSvi
  | otherParcel (ptype : String)
deriving DecidableEq, Repr

/-- `AnyParcel._get_parcel_type()`: the fixed type discriminator of each
parcel class. -/
def get_parcel_type : ServiceParcelClass → String
  | ServiceParcelClass.lanVpn => "lan/vpn"
  | ServiceParcelClass.interfaceEthernet => "lan/vpn/interface/ethernet"
  | ServiceParcelClass.interfaceGre => "lan/vpn/interface/gre"
  | ServiceParcelClass.interfaceIpsec => "lan/vpn/interface/ipsec"
  | ServiceParcelClass.interfaceSvi => "lan/vpn/interface/svi"
  | ServiceParcelClass.otherParcel t => t

/-- `TransformHeader` of `models/configuration/config_migration.py`. -/
structure TransformHeaderM where
  type : String
  origin : Nat
  subelements : Finset Nat := ∅
deriving DecidableEq

/-- `TransformedParcel`: a transform header plus the parcel payload,
represented by its class. -/
structure TransformedParcelM where
  header : TransformHeaderM
  parcel : ServiceParcelClass
deriving DecidableEq

/-- Stable insertion of one element into a list sorted descending by a
boolean key: the element goes in front of the first strictly smaller key
and otherwise stays behind, matching Python's stable `list.sort` with
`reverse=True`. -/
def pyInsertDescBool (key : α → Bool) (x : α) : List α → List α
  | [] => [x]
  | y :: ys => if key x || !key y then x :: y :: ys else y :: pyInsertDescBool key x ys

/-- Python `list.sort(key=..., reverse=True)` for a boolean key: the stable
descending sort. -/
def pySortDescBool (key : α → Bool) : List α → List α
  | [] => []
  | x :: xs => pyInsertDescBool key x (pySortDescBool key xs)

/-- The sort key of `_move_vpn_parcel_to_first_position`. -/
def isVpnKey (x : TransformedParcelM) : Bool :=
  get_parcel_type x.parcel == "lan/vpn"

/-- `ServiceParcelPusher._move_vpn_parcel_to_first_position`: the in-place
`parcels.sort(key=lambda x: x.parcel._get_parcel_type() == "lan/vpn",
reverse=True)`. -/
def move_vpn_parcel_to_first_position (parcels : List TransformedParcelM) :
    List TransformedParcelM :=
  pySortDescBool isVpnKey parcels

/-- A call made on the per-category builder strategy during a service push. -/
inductive BuilderAction
  | addParcelVpn (p : TransformedParcelM)
  | addParcel (p : TransformedParcelM)
deriving DecidableEq

/-- `ServiceParcelPusher._resolve_and_add_parcel`: a VPN parcel goes through
`add_parcel_vpn`, the four interface classes hit the documented `pass`
branch (no builder call), anything else goes through `add_parcel`. -/
def resolve_and_add_parcel (p : TransformedParcelM) : List BuilderAction :=
  match p.parcel with
  | ServiceParcelClass.lanVpn => [BuilderAction.addParcelVpn p]
  | ServiceParcelClass.interfaceEthernet => []
  | ServiceParcelClass.interfaceGre => []
  | ServiceParcelClass.interfaceIpsec => []
  | ServiceParcelClass.interfaceSvi => []
  | ServiceParcelClass.otherParcel _ => [BuilderAction.addParcel p]

/-- `ServiceParcelPusher.push`, restricted to its parcel-submission order:
reorder the list with the VPN parcels first, then feed each parcel to the
builder in that order. -/
def service_push_order (parcels : List TransformedParcelM) : List BuilderAction :=
  (move_vpn_parcel_to_first_position parcels).flatMap resolve_and_add_parcel

/-- `GeneralTemplate` of `device_template.py`: a named node with a declared
template type and nested sub-templates. Template identifiers are modelled
as numbers. -/
inductive GeneralTemplateT
  | mk (name : String) (subTemplates : List GeneralTemplateT)
      (templateId : Nat) (templateType : String)

/-- The node's name. -/
def GeneralTemplateT.name : GeneralTemplateT → String
  | GeneralTemplateT.mk n _ _ _ => n

/-- The node's nested sub-templates. -/
def GeneralTemplateT.subTemplates : GeneralTemplateT → List GeneralTemplateT
  | GeneralTemplateT.mk _ s _ _ => s

/-- The node's template identifier. -/
def GeneralTemplateT.templateId : GeneralTemplateT → Nat
  | GeneralTemplateT.mk _ _ i _ => i

/-- The node's declared template type. -/
def GeneralTemplateT.templateType : GeneralTemplateT → String
  | GeneralTemplateT.mk _ _ _ t => t

/-- `template.subTemplates = []`: the in-place emptying of a node's
sub-template list. -/
def GeneralTemplateT.clearSub : GeneralTemplateT → GeneralTemplateT
  | GeneralTemplateT.mk n _ i t => GeneralTemplateT.mk n [] i t

/-- The hoisting condition of `get_flattened_general_templates`: the node
has sub-templates and is not a `cisco_vpn` node. -/
def hoists (t : GeneralTemplateT) : Bool :=
  !t.subTemplates.isEmpty && t.templateType != "cisco_vpn"

/-- The result list built by `get_flattened_general_templates`: for a
hoisting node its sub-templates are appended first, then the node itself
with its sub-template list emptied; any other node is appended as-is. -/
def flattenedTemplates : List GeneralTemplateT → List GeneralTemplateT
  | [] => []
  | t :: rest =>
    if hoists t then t.subTemplates ++ (t.clearSub :: flattenedTemplates rest)
    else t :: flattenedTemplates rest

/-- The in-place effect of `get_flattened_general_templates` on the device
template's own `general_templates` list: every hoisting node's sub-template
list is emptied. -/
def flattenedMutation (l : List GeneralTemplateT) : List GeneralTemplateT :=
  l.map fun t => if hoists t then t.clearSub else t

/-- `DeviceTemplateWithInfo.get_flattened_general_templates`: the flattened
list together with the mutated state of `general_templates`. -/
def get_flattened_general_templates (l : List GeneralTemplateT) :
    List GeneralTemplateT × List GeneralTemplateT :=
  (flattenedTemplates l, flattenedMutation l)

/-- `FeatureTemplateInformation`: a leaf template instance. -/
structure FeatureTemplateInformation where
  id : Nat
  name : String
  template_type : String
deriving DecidableEq, Repr

/-- A legacy policy list, reduced to the fields `transform` reads. -/
structure PolicyListInfo where
  list_id : Nat
  name : String
  type : String
deriving DecidableEq, Repr

/-- `DeviceTemplateWithInfo`, reduced to the fields `transform` reads. -/
structure DeviceTemplateWithInfo where
  template_id : Nat
  template_name : String
  template_description : String
  general_templates : List GeneralTemplateT

/-- `UX1Templates`. -/
structure UX1Templates where
  feature_templates : List FeatureTemplateInformation := []
  device_templates : List DeviceTemplateWithInfo := []

/-- `UX1Policies`, reduced to the policy lists consumed by `transform`. -/
structure UX1Policies where
  policy_lists : List PolicyListInfo := []
deriving DecidableEq, Repr

/-- `UX1Config`. -/
structure UX1Config where
  policies : UX1Policies := {}
  templates : UX1Templates := {}

/-- `FeatureProfileCreationPayload`. -/
structure FeatureProfileCreationPayload where
  name : String
  description : String
deriving DecidableEq

/-- `TransformedFeatureProfile`. -/
structure TransformedFeatureProfile where
  header : TransformHeaderM
  feature_profile : FeatureProfileCreationPayload
deriving DecidableEq

/-- `ConfigGroupCreationPayload`. -/
structure ConfigGroupCreationPayload where
  name : String
  description : String
  solution : String
  profiles : List Nat := []
deriving DecidableEq

/-- `TransformedConfigGroup`. -/
structure TransformedConfigGroup where
  header : TransformHeaderM
  config_group : ConfigGroupCreationPayload
deriving DecidableEq

/-- `UX2Config`, reduced to the components `transform` writes. -/
structure UX2Config where
  config_groups : List TransformedConfigGroup := []
  feature_profiles : List TransformedFeatureProfile := []
  profile_parcels : List TransformedParcelM := []
deriving DecidableEq

/-- Modelled from the spec: `CISCO_VPN_TRANSPORT_AND_MANAGEMENT`, one of the
two resolved variants of the `cisco_vpn` type, is a constant of
`utils/config_migration/steps/transform.py`, a module not among the
sources; only its identity and its membership in the transport bucket
matter here. -/
def CISCO_VPN_TRANSPORT_AND_MANAGEMENT : String :=
  "cisco_vpn_transport_and_management"

/-- Modelled from the spec: `CISCO_VPN_SERVICE`, the other resolved variant
of the `cisco_vpn` type from the same absent module. -/
def CISCO_VPN_SERVICE : String := "cisco_vpn_service"

/-- `SUPPORTED_TEMPLATE_TYPES` of `workflows/config_migration.py`. -/
def SUPPORTED_TEMPLATE_TYPES : List String :=
  ["cisco_aaa", "cedge_aaa", "aaa", "cisco_banner", "cisco_security",
   "security", "security-vsmart", "security-vedge", "cisco_system",
   "system-vsmart", "system-vedge", "cedge_global", "cisco_logging",
   "logging", "cisco_omp", "omp-vedge", "omp-vsmart", "cisco_ntp", "ntp",
   "cisco_thousandeyes", "ucse", "dhcp", "cisco_dhcp_server", "cisco_vpn",
   "cisco_vpn_interface_gre", "vpn-vsmart-interface", "vpn-vedge-interface",
   "vpn-vmanage-interface", "cisco_vpn_interface",
   "cisco_vpn_interface_ipsec", "vpn-interface-svi", "cisco_ospf",
   "switchport", "cisco_wireless_lan", "cisco_multicast", "cisco_pim",
   "cisco_igmp", "cisco_IGMP", "igmp", "pim", "multicast", "cedge_igmp",
   "cedge_multicast", "cedge_pim", "vpn-interface-t1-e1",
   "vpn-interface-ethpppoe", "vpn-interface-pppoe", "vpn-interface-pppoa",
   "vpn-interface-ipoe"]

/-- `FEATURE_PROFILE_SYSTEM`. -/
def FEATURE_PROFILE_SYSTEM : List String :=
  ["cisco_aaa", "cedge_aaa", "aaa", "cisco_banner", "cisco_security",
   "security", "security-vsmart", "security-vedge", "cisco_system",
   "system-vsmart", "system-vedge", "cedge_global", "cisco_logging",
   "logging", "cisco_omp", "omp-vedge", "omp-vsmart", "cisco_ntp", "ntp",
   "cisco_snmp"]

/-- `FEATURE_PROFILE_TRANSPORT`. -/
def FEATURE_PROFILE_TRANSPORT : List String :=
  ["dhcp", "cisco_dhcp_server", "dhcp-server", "vpn-interface-t1-e1",
   "vpn-interface-ethpppoe", "vpn-interface-pppoe", "vpn-interface-pppoa",
   "vpn-interface-ipoe", CISCO_VPN_TRANSPORT_AND_MANAGEMENT]

/-- `FEATURE_PROFILE_OTHER`. -/
def FEATURE_PROFILE_OTHER : List String :=
  ["cisco_thousandeyes", "ucse"]

/-- `FEATURE_PROFILE_SERVICE`. -/
def FEATURE_PROFILE_SERVICE : List String :=
  ["cisco_vpn_interface_gre", "vpn-vsmart-interface", "vpn-vedge-interface",
   "vpn-vmanage-interface", "cisco_vpn_interface",
   "cisco_vpn_interface_ipsec", "vpn-interface-svi", "cisco_ospf",
   "switchport", "cisco_wireless_lan", "cisco_multicast", "cisco_pim",
   "cisco_igmp", "cisco_IGMP", "igmp", "pim", "multicast", "cedge_igmp",
   "cedge_multicast", "cedge_pim", CISCO_VPN_SERVICE]

/-- The four per-category subelement sets being filled for one device
template, plus the global `subtemplates_mapping` dictionary (a total
function defaulting to the empty set, as `defaultdict(set)` does). -/
structure BucketState where
  sys : Finset Nat
  oth : Finset Nat
  srv : Finset Nat
  trp : Finset Nat
  mapping : Nat → Finset Nat

/-- Pointwise dictionary update. -/
def mapUpd (m : Nat → Finset Nat) (k : Nat) (v : Finset Nat) : Nat → Finset Nat :=
  fun x => if x = k then v else m x

/-- The conditional call of `resolve_template_type` in the template loop of
`transform`: only a `cisco_vpn` node is rewritten (`rtt` stands for that
resolver, see `transform`). -/
def resolveIfVpn (rtt : GeneralTemplateT → GeneralTemplateT)
    (t : GeneralTemplateT) : GeneralTemplateT :=
  if t.templateType = "cisco_vpn" then rtt t else t

/-- One iteration of the template loop in `transform`: a `cisco_vpn` node is
first rewritten by `resolve_template_type`, then the node's identifier is
added to the subelement set of the category containing its (possibly
resolved) type, and its sub-template identifiers are recorded in
`subtemplates_mapping`. -/
def bucketStep (rtt : GeneralTemplateT → GeneralTemplateT) (bs : BucketState)
    (t : GeneralTemplateT) : BucketState :=
  let t' := resolveIfVpn rtt t
  let u := t'.templateId
  let bs1 :=
    if FEATURE_PROFILE_SYSTEM.contains t'.templateType then
      { bs with sys := insert u bs.sys }
    else if FEATURE_PROFILE_OTHER.contains t'.templateType then
      { bs with oth := insert u bs.oth }
    else if FEATURE_PROFILE_SERVICE.contains t'.templateType then
      { bs with srv := insert u bs.srv }
    else if FEATURE_PROFILE_TRANSPORT.contains t'.templateType then
      { bs with trp := insert u bs.trp }
    else bs
  let subIds := (t'.subTemplates.map GeneralTemplateT.templateId).toFinset
  if 0 < t'.subTemplates.length then
    { bs1 with mapping := mapUpd bs1.mapping u subIds }
  else bs1

/-- The in-place effect of the per-device-template processing on the device
template itself: `get_flattened_general_templates` empties the hoisting
nodes' sub-template lists, and `resolve_template_type` rewrites the
remaining `cisco_vpn` nodes. -/
def mutatedDeviceTemplate (rtt : GeneralTemplateT → GeneralTemplateT)
    (dt : DeviceTemplateWithInfo) : DeviceTemplateWithInfo :=
  { dt with general_templates :=
      (flattenedMutation dt.general_templates).map (resolveIfVpn rtt) }

/-- The state threaded through the device-template loop of `transform`. -/
structure DTLoopState where
  profiles : List TransformedFeatureProfile
  groups : List TransformedConfigGroup
  mapping : Nat → Finset Nat
  dts : List DeviceTemplateWithInfo
  freshCounter : Nat

/-- Processing of one device template inside `transform`: four fresh
feature-profile containers (system, other, service, transport, in the
creation order of their `uuid4()` identifiers), the bucketed subelement
sets, one config group referencing exactly the four fresh identifiers, and
the mutated device template. -/
def transformDT (rtt : GeneralTemplateT → GeneralTemplateT) (st : DTLoopState)
    (dt : DeviceTemplateWithInfo) : DTLoopState :=
  let flat := flattenedTemplates dt.general_templates
  let n := st.freshCounter
  let bs := flat.foldl (bucketStep rtt)
    { sys := ∅, oth := ∅, srv := ∅, trp := ∅, mapping := st.mapping }
  let fpSystem : TransformedFeatureProfile :=
    { header := { type := "system", origin := n, subelements := bs.sys },
      feature_profile := { name := dt.template_name ++ "_system", description := "system" } }
  let fpOther : TransformedFeatureProfile :=
    { header := { type := "other", origin := n + 1, subelements := bs.oth },
      feature_profile := { name := dt.template_name ++ "_other", description := "other" } }
  let fpService : TransformedFeatureProfile :=
    { header := { type := "service", origin := n + 2, subelements := bs.srv },
      feature_profile := { name := dt.template_name ++ "_service", description := "service" } }
  let fpTransport : TransformedFeatureProfile :=
    { header := { type := "transport", origin := n + 3, subelements := bs.trp },
      feature_profile := { name := dt.template_name ++ "_transport_and_management",
                           description := "transport_and_management" } }
  let cg : TransformedConfigGroup :=
    { header := { type := "config_group", origin := dt.template_id,
                  subelements := {n, n + 1, n + 2, n + 3} },
      config_group := { name := dt.template_name, description := dt.template_description,
                        solution := "sdwan", profiles := [] } }
  { profiles := st.profiles ++ [fpSystem, fpOther, fpService, fpTransport],
    groups := st.groups ++ [cg],
    mapping := bs.mapping,
    dts := st.dts ++ [mutatedDeviceTemplate rtt dt],
    freshCounter := n + 4 }

/-- The device-template loop of `transform`. -/
def transformDTsLoop (rtt : GeneralTemplateT → GeneralTemplateT) :
    DTLoopState → List DeviceTemplateWithInfo → DTLoopState
  | st, [] => st
  | st, dt :: rest => transformDTsLoop rtt (transformDT rtt st dt) rest

/-- The feature-template loop of `transform`: templates with a supported
type are converted through `create_parcel_from_template` (supplied as the
`cpft` hook, since the per-type converter registry is schema plumbing
outside this core); the loop does not guard against a converter's declared
conversion error, so such an error propagates. -/
def transformFTsLoop (cpft : FeatureTemplateInformation → Except String ServiceParcelClass)
    (mapping : Nat → Finset Nat) :
    List FeatureTemplateInformation → Except String (List TransformedParcelM)
  | [] => Except.ok []
  | ft :: rest =>
    if SUPPORTED_TEMPLATE_TYPES.contains ft.template_type then
      match cpft ft with
      | Except.error e => Except.error e
      | Except.ok parcel =>
        match transformFTsLoop cpft mapping rest with
        | Except.error e => Except.error e
        | Except.ok restP =>
          Except.ok
            ({ header := { type := get_parcel_type parcel, origin := ft.id,
                           subelements := mapping ft.id },
               parcel := parcel } :: restP)
    else transformFTsLoop cpft mapping rest

/-- The policy-list loop of `transform`: a declared
`PolicyListConversionError` from the converter is caught, the failing list
is skipped with a warning, and the loop continues. -/
def transformPLsLoop (cvt : PolicyListInfo → Except String ServiceParcelClass) :
    List PolicyListInfo → List TransformedParcelM × List String
  | [] => ([], [])
  | pl :: rest =>
    let r := transformPLsLoop cvt rest
    match cvt pl with
    | Except.ok parcel =>
      (({ header := { type := get_parcel_type parcel, origin := pl.list_id },
          parcel := parcel } : TransformedParcelM) :: r.1, r.2)
    | Except.error e =>
      (r.1, (pl.type ++ " " ++ pl.name ++ " was not converted: " ++ e) :: r.2)

/-- `transform` of `workflows/config_migration.py`. Hooks standing for
collaborator modules that are not among the sources: `cpft` is
`create_parcel_from_template`, `cvt` is the policy-list `convert`, `rtt` is
`resolve_template_type` (modelled from the spec as a rewrite applied to a
`cisco_vpn` node), and `mergeParcels` is the `merge_parcels`
post-processing hook applied before returning. Fresh `uuid4()` identifiers
are drawn from the counter; the mutated input config is returned alongside
the result, modelling the in-place mutation of the caller's `ux1`. -/
def transform (cpft : FeatureTemplateInformation → Except String ServiceParcelClass)
    (cvt : PolicyListInfo → Except String ServiceParcelClass)
    (rtt : GeneralTemplateT → GeneralTemplateT)
    (mergeParcels : UX2Config → UX2Config)
    (ux1 : UX1Config) (fresh : Nat) :
    Except String (UX2Config × UX1Config × Nat) :=
  let d := transformDTsLoop rtt
    { profiles := [], groups := [], mapping := fun _ => ∅, dts := [], freshCounter := fresh }
    ux1.templates.device_templates
  match transformFTsLoop cpft d.mapping ux1.templates.feature_templates with
  | Except.error e => Except.error e
  | Except.ok parcelsFT =>
    let pls := transformPLsLoop cvt ux1.policies.policy_lists
    let ux2 : UX2Config :=
      { config_groups := d.groups, feature_profiles := d.profiles,
        profile_parcels := parcelsFT ++ pls.1 }
    Except.ok (mergeParcels ux2,
      { ux1 with templates := { ux1.templates with device_templates := d.dts } },
      d.freshCounter)

/-- Modelled from the spec: `FeatureProfileBuildRapport` (defined in
`models/builders.py`, a module not among the sources) carries the
per-feature-profile lists of created parcels and of failed parcels with
their failure reasons; only the two list lengths are consumed by
`set_success_rate`. -/
structure FeatureProfileBuildRapport where
  created_parcels : List String := []
  failed_parcels : List String := []
deriving DecidableEq, Repr

/-- `ConfigGroupRapport`. -/
structure ConfigGroupRapport where
  name : String
  uuid : Nat
  feature_profiles : List FeatureProfileBuildRapport := []
deriving DecidableEq, Repr

/-- `UX2ConfigPushRapport`, reduced to the fields `set_success_rate`
touches. -/
structure UX2ConfigPushRapport where
  config_groups : List ConfigGroupRapport := []
  success_rate_message : String := ""
deriving DecidableEq, Repr

/-- The created-parcel total summed by `set_success_rate`. -/
def createdParcelsCount (r : UX2ConfigPushRapport) : Nat :=
  (r.config_groups.map fun g =>
    (g.feature_profiles.map fun fp => fp.created_parcels.length).sum).sum

/-- The failed-parcel total summed by `set_success_rate`. -/
def failedParcelsCount (r : UX2ConfigPushRapport) : Nat :=
  (r.config_groups.map fun g =>
    (g.feature_profiles.map fun fp => fp.failed_parcels.length).sum).sum

/-- `UX2ConfigPushRapport.set_success_rate`: sums created and failed parcel
counts and divides by their total without guarding the zero case; the
`ZeroDivisionError` raised when the report holds no parcels is modelled as
`none`. The percentage is Python float division truncated by `int(...)`,
which for these magnitudes is integer division. -/
def set_success_rate (r : UX2ConfigPushRapport) : Option UX2ConfigPushRapport :=
  let created := createdParcelsCount r
  let failed := failedParcelsCount r
  let allParcels := created + failed
  let msg := toString created ++ "/" ++ toString allParcels ++ " (" ++
    toString (created * 100 / allParcels) ++ "%) parcels created successfully."
  if allParcels = 0 then none
  else some { r with success_rate_message := msg }

/-- The four category subelement sets of a bucket state. -/
def bucketSetsOf (bs : BucketState) :
    Finset Nat × Finset Nat × Finset Nat × Finset Nat :=
  (bs.sys, bs.oth, bs.srv, bs.trp)

/-- The effect of one template-loop iteration on the four category sets, as
a function of the resolved node alone. -/
def bucketSetsUpd (t' : GeneralTemplateT)
    (s : Finset Nat × Finset Nat × Finset Nat × Finset Nat) :
    Finset Nat × Finset Nat × Finset Nat × Finset Nat :=
  if FEATURE_PROFILE_SYSTEM.contains t'.templateType then
    (insert t'.templateId s.1, s.2.1, s.2.2.1, s.2.2.2)
  else if FEATURE_PROFILE_OTHER.contains t'.templateType then
    (s.1, insert t'.templateId s.2.1, s.2.2.1, s.2.2.2)
  else if FEATURE_PROFILE_SERVICE.contains t'.templateType then
    (s.1, s.2.1, insert t'.templateId s.2.2.1, s.2.2.2)
  else if FEATURE_PROFILE_TRANSPORT.contains t'.templateType then
    (s.1, s.2.1, s.2.2.1, insert t'.templateId s.2.2.2)
  else s

/-- The bucket state computed for one device template, started from the
empty mapping; by `bucketFold_sets_congr` its four sets coincide with the
sets computed inside `transform`, whatever the global mapping holds. -/
def dtBuckets (rtt : GeneralTemplateT → GeneralTemplateT)
    (dt : DeviceTemplateWithInfo) : BucketState :=
  (flattenedTemplates dt.general_templates).foldl (bucketStep rtt)
    { sys := ∅, oth := ∅, srv := ∅, trp := ∅, mapping := fun _ => ∅ }

/-- The synthetic system feature profile of one device template, with fresh
origin `n`. -/
def fpSystemOf (rtt : GeneralTemplateT → GeneralTemplateT)
    (dt : DeviceTemplateWithInfo) (n : Nat) : TransformedFeatureProfile :=
  { header :=
      { type := "system"
        origin := n
        subelements := (dtBuckets rtt dt).sys }
    feature_profile :=
      { name := dt.template_name ++ "_system"
        description := "system" } }

/-- The synthetic other feature profile, with fresh origin `n + 1`. -/
def fpOtherOf (rtt : GeneralTemplateT → GeneralTemplateT)
    (dt : DeviceTemplateWithInfo) (n : Nat) : TransformedFeatureProfile :=
  { header :=
      { type := "other"
        origin := n + 1
        subelements := (dtBuckets rtt dt).oth }
    feature_profile :=
      { name := dt.template_name ++ "_other"
        description := "other" } }

/-- The synthetic service feature profile, with fresh origin `n + 2`. -/
def fpServiceOf (rtt : GeneralTemplateT → GeneralTemplateT)
    (dt : DeviceTemplateWithInfo) (n : Nat) : TransformedFeatureProfile :=
  { header :=
      { type := "service"
        origin := n + 2
        subelements := (dtBuckets rtt dt).srv }
    feature_profile :=
      { name := dt.template_name ++ "_service"
        description := "service" } }

/-- The synthetic transport feature profile, with fresh origin `n + 3`. -/
def fpTransportOf (rtt : GeneralTemplateT → GeneralTemplateT)
    (dt : DeviceTemplateWithInfo) (n : Nat) : TransformedFeatureProfile :=
  { header :=
      { type := "transport"
        origin := n + 3
        subelements := (dtBuckets rtt dt).trp }
    feature_profile :=
      { name := dt.template_name ++ "_transport_and_management"
        description := "transport_and_management" } }

/-- The four feature profiles of one device template, in creation order. -/
def dtProfiles (rtt : GeneralTemplateT → GeneralTemplateT)
    (dt : DeviceTemplateWithInfo) (n : Nat) : List TransformedFeatureProfile :=
  [fpSystemOf rtt dt n, fpOtherOf rtt dt n, fpServiceOf rtt dt n,
   fpTransportOf rtt dt n]

/-- The config group of one device template: its subelements are exactly the
four fresh profile origins. -/
def dtGroup (dt : DeviceTemplateWithInfo) (n : Nat) : TransformedConfigGroup :=
  { header :=
      { type := "config_group"
        origin := dt.template_id
        subelements := {n, n + 1, n + 2, n + 3} }
    config_group :=
      { name := dt.template_name
        description := dt.template_description
        solution := "sdwan"
        profiles := [] } }

/-- The whole feature-profile list produced by the device-template loop,
four profiles per device template. -/
def dtsProfiles (rtt : GeneralTemplateT → GeneralTemplateT) :
    List DeviceTemplateWithInfo → Nat → List TransformedFeatureProfile
  | [], _ => []
  | dt :: rest, n => dtProfiles rtt dt n ++ dtsProfiles rtt rest (n + 4)

/-- The whole config-group list produced by the device-template loop, one
group per device template. -/
def dtsGroups : List DeviceTemplateWithInfo → Nat → List TransformedConfigGroup
  | [], _ => []
  | dt :: rest, n => dtGroup dt n :: dtsGroups rest (n + 4)

/-- The creation events contributed by an optional translation rule. -/
def optRuleTrace : Option UcParcel → List BuildEvent
  | some r => [BuildEvent.createParcel r]
  | none => []

/-- Insertion of a sub-rule's creation result into the composite, when the
creation succeeded. -/
def applyRef (ct : CallType) (u? : Option Nat) (p : UcParcel) : UcParcel :=
  match u? with
  | some u => set_ref_by_call_type p u ct
  | none => p

/-- How many sub-rule creation calls a translation profile issues. -/
def countRules (tp : TranslationProfile) : Nat :=
  (if tp.called.isSome then 1 else 0) + (if tp.calling.isSome then 1 else 0)

/-- The composite translation-profile parcel as submitted for creation: the
queued parcel with the identifiers returned for its called rule (call index
`k`) and its calling rule (the following index) inserted beforehand. -/
def tpComposite (api : Nat → Option Nat) (k : Nat) (tp : TranslationProfile) :
    UcParcel :=
  let calledRes : Option Nat := match tp.called with
    | some _ => api k
    | none => none
  let callingRes : Option Nat := match tp.calling with
    | some _ => api (k + (if tp.called.isSome then 1 else 0))
    | none => none
  applyRef CallType.calling callingRes (applyRef CallType.called calledRes tp.tpp)

/-- The creation events of one translation-profile composite starting at
call index `k`: the called rule, then the calling rule, then the composite
itself carrying the sub-rules' returned identifiers. -/
def tpSegment (api : Nat → Option Nat) (k : Nat) (tp : TranslationProfile) :
    List BuildEvent :=
  optRuleTrace tp.called ++ optRuleTrace tp.calling ++
    [BuildEvent.createParcel (tpComposite api k tp)]

/-- The creation events of the whole translation-profile phase starting at
call index `k`. -/
def tpsTrace (api : Nat → Option Nat) : Nat → List TranslationProfile → List BuildEvent
  | _, [] => []
  | k, tp :: rest => tpSegment api k tp ++ tpsTrace api (k + countRules tp + 1) rest

/-- The number of creation calls issued by the translation-profile phase. -/
def rulesTotal : List TranslationProfile → Nat
  | [] => 0
  | tp :: rest => countRules tp + 1 + rulesTotal rest

/-- A converter hook that succeeds on everything, a witness input. -/
def cpftOkAaa : FeatureTemplateInformation → Except String ServiceParcelClass :=
  fun _ => Except.ok (ServiceParcelClass.otherParcel "aaa")

/-- A converter hook that raises its declared cannot-convert error on
everything, a counterexample input. -/
def cpftFails : FeatureTemplateInformation → Except String ServiceParcelClass :=
  fun _ => Except.error "Feature Template does not contain OSPFv3 configuration"

/-- A policy-list converter hook that succeeds on everything. -/
def cvtOkColor : PolicyListInfo → Except String ServiceParcelClass :=
  fun _ => Except.ok (ServiceParcelClass.otherParcel "color")

/-- A policy-list converter hook that raises its declared conversion error
exactly on lists of type "bad". -/
def cvtSelective : PolicyListInfo → Except String ServiceParcelClass :=
  fun pl =>
    if pl.type = "bad" then Except.error "no converter"
    else Except.ok (ServiceParcelClass.otherParcel pl.type)

/-- A device template with no general templates, a witness input. -/
def dtEmpty : DeviceTemplateWithInfo :=
  { template_id := 7, template_name := "edge", template_description := "d",
    general_templates := [] }

/-- A config holding only `dtEmpty`, a witness input. -/
def ux1Empty : UX1Config :=
  { policies := {},
    templates := { feature_templates := [], device_templates := [dtEmpty] } }

/-- A supported-type leaf feature template, a counterexample input. -/
def ftSystem : FeatureTemplateInformation :=
  { id := 11, name := "sys", template_type := "cisco_system" }

/-- A config holding only `ftSystem`, a counterexample input. -/
def ux1WithFt : UX1Config :=
  { policies := {},
    templates := { feature_templates := [ftSystem], device_templates := [] } }

/-- A child general template of a bucketed type. -/
def gtChild : GeneralTemplateT := GeneralTemplateT.mk "c" [] 21 "cisco_banner"

/-- A non-`cisco_vpn` general template holding `gtChild` as sub-template. -/
def gtParent : GeneralTemplateT :=
  GeneralTemplateT.mk "p" [gtChild] 20 "cisco_logging"

/-- A device template whose general-template tree nests `gtChild` under
`gtParent`, a counterexample input. -/
def dtNested : DeviceTemplateWithInfo :=
  { template_id := 7, template_name := "n", template_description := "d",
    general_templates := [gtParent] }

/-- A config holding only `dtNested`, a counterexample input. -/
def ux1Nested : UX1Config :=
  { policies := {},
    templates := { feature_templates := [], device_templates := [dtNested] } }

/-- Two policy lists, the second of the failing type, a witness input. -/
def plGood : PolicyListInfo := { list_id := 31, name := "colors", type := "color" }

/-- The failing policy list of the pair. -/
def plBad : PolicyListInfo := { list_id := 32, name := "broken", type := "bad" }

/-- The header projection under which two `transform` runs are compared:
the profile type tag and the subelement set, ignoring the freshly
generated origin identifiers. -/
def fpHeaderProj (fp : TransformedFeatureProfile) : String × Finset Nat :=
  (fp.header.type, fp.header.subelements)

/-- A childless `cisco_vpn` general template, a witness input. -/
def gtVpn : GeneralTemplateT := GeneralTemplateT.mk "v" [] 25 "cisco_vpn"

/-- A childless logging general template, a witness input. -/
def gtLog : GeneralTemplateT := GeneralTemplateT.mk "l" [] 26 "cisco_logging"

/-- A device template whose general templates carry no sub-templates. -/
def dtFlat : DeviceTemplateWithInfo :=
  { template_id := 8, template_name := "f", template_description := "d",
    general_templates := [gtVpn, gtLog] }

/-- A config holding only `dtFlat`, a witness input. -/
def ux1Flat : UX1Config :=
  { policies := {},
    templates := { feature_templates := [], device_templates := [dtFlat] } }

/-- A conforming resolver instance: rewrites any node's type to the
transport-and-management variant, keeping everything else. -/
def rttResolve : GeneralTemplateT → GeneralTemplateT :=
  fun t => GeneralTemplateT.mk t.name t.subTemplates t.templateId
    CISCO_VPN_TRANSPORT_AND_MANAGEMENT

/-- A concrete one-group report with two created and one failed parcel, used
to witness the success-rate claim. -/
def rapportEx : UX2ConfigPushRapport :=
  { config_groups :=
      [{ name := "cg", uuid := 1,
         feature_profiles :=
           [{ created_parcels := ["a", "b"], failed_parcels := ["c"] }] }] }

/-- The success-rate message text for a created count and a total. -/
def successRateText (created allParcels : Nat) : String :=
  toString created ++ "/" ++ toString allParcels ++ " (" ++
    toString (created * 100 / allParcels) ++ "%) parcels created successfully."

/-- One association model holding a syntactically valid UUID reference, a
witness input. -/
def amodelValid : AModel :=
  { className := "A",
    fields := [("media_profile",
      FieldAttr.refItem ⟨⟨RefKind.globalK, some (uuidStr 42)⟩⟩)] }

/-- One association model holding an unresolvable name, a witness input. -/
def amodelDangling : AModel :=
  { className := "AnalogInterfaceAssociation",
    fields := [("translation_profile",
      FieldAttr.refItem ⟨⟨RefKind.globalK, some "TPP"⟩⟩)] }

/-- Insertion in front of a whole list when the inserted key is true. -/
theorem pyInsertDescBool_true (key : α → Bool) (x : α) (l : List α)
    (hx : key x = true) : pyInsertDescBool key x l = x :: l := by
  cases l with
  | nil => rfl
  | cons y ys => simp [pyInsertDescBool, hx]

/-- Insertion of a false-key element passes over a true-key block. -/
theorem pyInsertDescBool_skip (key : α → Bool) (x : α) (A B : List α)
    (hx : key x = false) (hA : ∀ a ∈ A, key a = true) :
    pyInsertDescBool key x (A ++ B) = A ++ pyInsertDescBool key x B := by
  induction A with
  | nil => rfl
  | cons a as ih =>
    have ha : key a = true := hA a (List.mem_cons_self a as)
    have ih2 := ih fun b hb => hA b (List.mem_cons_of_mem a hb)
    simp [pyInsertDescBool, hx, ha, ih2]

/-- Insertion of a false-key element in front of a false-key block. -/
theorem pyInsertDescBool_front (key : α → Bool) (x : α) (B : List α)
    (hx : key x = false) (hB : ∀ b ∈ B, key b = false) :
    pyInsertDescBool key x B = x :: B := by
  cases B with
  | nil => rfl
  | cons b bs =>
    have hb : key b = false := hB b (List.mem_cons_self b bs)
    simp [pyInsertDescBool, hx, hb]

/-- The stable descending boolean-key sort is the stable partition: the
true-key elements in original order, then the false-key elements in
original order. -/
theorem pySortDescBool_eq_partition (key : α → Bool) (l : List α) :
    pySortDescBool key l = l.filter key ++ l.filter (fun x => !key x) := by
  induction l with
  | nil => rfl
  | cons x xs ih =>
    simp only [pySortDescBool, ih]
    cases hx : key x with
    | true =>
      rw [pyInsertDescBool_true key x _ hx]
      simp [List.filter, hx]
    | false =>
      rw [pyInsertDescBool_skip key x _ _ hx
          (fun a ha => List.of_mem_filter ha)]
      rw [pyInsertDescBool_front key x _ hx
          (fun b hb => by simpa using List.of_mem_filter hb)]
      simp [List.filter, hx]

/-- C3: after `ServiceParcelPusher._move_vpn_parcel_to_first_position`,
every VPN-type parcel (parcel type "lan/vpn") precedes every non-VPN
parcel, the relative order inside each of the two groups being preserved;
consequently the submission order of `push` feeds the builder everything
produced from the VPN parcels of the list before anything produced from
the non-VPN remainder. -/
theorem service_pusher_vpn_parcels_first (parcels : List TransformedParcelM) :
    move_vpn_parcel_to_first_position parcels =
      parcels.filter isVpnKey ++ parcels.filter (fun x => !isVpnKey x) ∧
    service_push_order parcels =
      (parcels.filter isVpnKey).flatMap resolve_and_add_parcel ++
      (parcels.filter (fun x => !isVpnKey x)).flatMap resolve_and_add_parcel := by
  refine ⟨pySortDescBool_eq_partition isVpnKey parcels, ?_⟩
  unfold service_push_order move_vpn_parcel_to_first_position
  rw [pySortDescBool_eq_partition isVpnKey parcels, List.flatMap_append]

/-- C9: the flattened general-template list of a device template preserves
the original order; a `cisco_vpn` node (and a childless node) is kept
as-is, sub-templates attached, while every other node contributes its
sub-templates to the flat list directly, immediately followed by the node
itself with its own `subTemplates` emptied — both in the returned list and
in the mutated `general_templates` of the device template. -/
theorem flattened_general_templates_spec (l : List GeneralTemplateT) :
    (get_flattened_general_templates l).1 =
      l.flatMap (fun t =>
        if t.templateType = "cisco_vpn" then [t]
        else if t.subTemplates.isEmpty then [t]
        else t.subTemplates ++ [t.clearSub]) ∧
    (get_flattened_general_templates l).2 =
      l.map (fun t =>
        if t.templateType = "cisco_vpn" then t
        else if t.subTemplates.isEmpty then t
        else t.clearSub) := by
  constructor
  · show flattenedTemplates l = _
    induction l with
    | nil => rfl
    | cons t ts ih =>
      simp only [flattenedTemplates, List.flatMap_cons, ih]
      by_cases hv : t.templateType = "cisco_vpn"
      · simp [hoists, hv]
      · by_cases hs : t.subTemplates.isEmpty
        · simp [hoists, hv, hs]
        · simp [hoists, hv, hs]
  · show flattenedMutation l = _
    unfold flattenedMutation
    apply List.map_congr_left
    intro t _
    by_cases hv : t.templateType = "cisco_vpn"
    · simp [hoists, hv]
    · by_cases hs : t.subTemplates.isEmpty
      · simp [hoists, hv, hs]
      · simp [hoists, hv, hs]


/-- C10: `set_success_rate` divides the created-parcel count by the total of
created plus failed parcels with no guard; whenever the report holds at
least one parcel the method terminates and writes the success-rate message,
and that precondition is exactly what keeps the division-by-zero branch
unreachable — a report with no parcels hits it. -/
theorem set_success_rate_safe (r : UX2ConfigPushRapport)
    (h : 0 < createdParcelsCount r + failedParcelsCount r) :
    (∃ r' : UX2ConfigPushRapport,
      set_success_rate r = some r' ∧
      r'.config_groups = r.config_groups ∧
      r'.success_rate_message =
        successRateText (createdParcelsCount r)
          (createdParcelsCount r + failedParcelsCount r)) ∧
    (∀ r0 : UX2ConfigPushRapport,
      createdParcelsCount r0 + failedParcelsCount r0 = 0 →
      set_success_rate r0 = none) := by
  constructor
  · have hne : ¬(createdParcelsCount r + failedParcelsCount r = 0) :=
      Nat.pos_iff_ne_zero.mp h
    have hv : set_success_rate r = some
        { r with success_rate_message := successRateText (createdParcelsCount r) (createdParcelsCount r + failedParcelsCount r) } := by
      simp only [set_success_rate, successRateText]
      rw [if_neg hne]
    exact ⟨_, hv, rfl, rfl⟩
  · intro r0 h0
    simp only [set_success_rate]
    rw [if_pos h0]

/-- Witness for C10 at a concrete one-group report holding three parcels. -/
theorem set_success_rate_safe_witness :
    (0 < createdParcelsCount rapportEx + failedParcelsCount rapportEx) ∧
    ((∃ r' : UX2ConfigPushRapport,
      set_success_rate rapportEx = some r' ∧
      r'.config_groups = rapportEx.config_groups ∧
      r'.success_rate_message =
        successRateText (createdParcelsCount rapportEx)
          (createdParcelsCount rapportEx + failedParcelsCount rapportEx)) ∧
    (∀ r0 : UX2ConfigPushRapport,
      createdParcelsCount r0 + failedParcelsCount r0 = 0 →
      set_success_rate r0 = none)) :=
  ⟨by decide, set_success_rate_safe rapportEx (by decide)⟩

/-- C6: `add_translation_profile` accepts a translation profile carrying
only a calling rule, queueing it for the later `build`; with neither a
calling nor a called rule it raises `ValueError` at construction time,
leaving the builder unchanged and issuing no creation call (the method
never touches the API). -/
theorem add_translation_profile_validation (b : UcVoiceBuilder)
    (tpp c : UcParcel) :
    add_translation_profile b tpp (some c) none =
      Except.ok { b with translationProfiles := b.translationProfiles ++
        [{ tpp := tpp, calling := some c, called := none }] } ∧
    add_translation_profile b tpp none none =
      Except.error
        "There must be at least one translation rule to create a translation profile." := by
  constructor
  · rfl
  · rfl

/-- An attribute whose reference value is absent or a valid UUID string is
left untouched by the resolver, with no warning. -/
theorem populateAttr_valid (pushed : List (String × Nat)) (mn fn : String)
    (item : RefIdItem) (hval : is_uuid item.ref_id.value = true) :
    populateAttr pushed mn fn (FieldAttr.refItem item) =
      (FieldAttr.refItem item, []) := by
  cases hv : item.ref_id.value with
  | none => simp [populateAttr, hv]
  | some s =>
    rw [hv] at hval
    simp [populateAttr, hv, hval]

/-- An attribute holding an unresolvable name is rewritten to the
`Default[None]` sentinel, with one warning naming the field, the value, and
the owning model. -/
theorem populateAttr_unresolved (pushed : List (String × Nat)) (mn fn s : String)
    (item : RefIdItem) (hs : item.ref_id.value = some s)
    (hbad : is_uuid (some s) = false) (hmiss : pushed.lookup s = none) :
    populateAttr pushed mn fn (FieldAttr.refItem item) =
      (FieldAttr.refItem ⟨as_default_none⟩, [⟨fn, s, mn⟩]) := by
  simp [populateAttr, hs, hbad, hmiss]

/-- The resolver processes association models pointwise. -/
theorem populate_association_getElem (pushed : List (String × Nat))
    (assoc : List AModel) (i : Nat) (m : AModel) (hm : assoc[i]? = some m) :
    (populate_association pushed assoc).1[i]? =
      some (populateModel pushed m).1 := by
  simp [populate_association, hm]

/-- The fields of a resolved model, position by position. -/
theorem populateModel_fields_getElem (pushed : List (String × Nat)) (m : AModel)
    (j : Nat) (fname : String) (a : FieldAttr)
    (hf : m.fields[j]? = some (fname, a)) :
    (populateModel pushed m).1.fields[j]? =
      some (if fname ∈ ASSOCIATON_FIELDS then
        (fname, (populateAttr pushed m.className fname a).1) else (fname, a)) := by
  simp only [populateModel, List.map_map]
  rw [List.getElem?_map, hf]
  by_cases hcm : fname ∈ ASSOCIATON_FIELDS
  · have hc : ASSOCIATON_FIELDS.contains fname = true := by simpa using hcm
    simp [hc, hcm]
  · have hc : ASSOCIATON_FIELDS.contains fname = false := by simpa using hcm
    simp [hc, hcm]

/-- C5: for every association field whose raw reference value already parses
as a valid identifier or is absent, `_populate_association` leaves the
field exactly as it was. -/
theorem resolver_leaves_valid_refs (pushed : List (String × Nat))
    (assoc : List AModel) (i j : Nat) (m : AModel) (fname : String)
    (item : RefIdItem) (hm : assoc[i]? = some m)
    (hf : m.fields[j]? = some (fname, FieldAttr.refItem item))
    (hval : is_uuid item.ref_id.value = true) :
    ∃ m', (populate_association pushed assoc).1[i]? = some m' ∧
      m'.className = m.className ∧
      m'.fields[j]? = some (fname, FieldAttr.refItem item) := by
  refine ⟨(populateModel pushed m).1,
    populate_association_getElem pushed assoc i m hm, rfl, ?_⟩
  rw [populateModel_fields_getElem pushed m j fname (FieldAttr.refItem item) hf]
  by_cases hcm : fname ∈ ASSOCIATON_FIELDS
  · simp [hcm, populateAttr_valid pushed m.className fname item hval]
  · simp [hcm]

/-- Witness for C5: a field holding a syntactically valid UUID string is
untouched even when the pushed map could rebind other names. -/
theorem resolver_leaves_valid_refs_witness :
    ([amodelValid][0]? = some amodelValid) ∧
    (amodelValid.fields[0]? = some ("media_profile",
      FieldAttr.refItem ⟨⟨RefKind.globalK, some (uuidStr 42)⟩⟩)) ∧
    (is_uuid (⟨⟨RefKind.globalK, some (uuidStr 42)⟩⟩ : RefIdItem).ref_id.value = true) ∧
    (∃ m', (populate_association [("x", 9)] [amodelValid]).1[0]? = some m' ∧
      m'.className = amodelValid.className ∧
      m'.fields[0]? = some ("media_profile",
        FieldAttr.refItem ⟨⟨RefKind.globalK, some (uuidStr 42)⟩⟩)) :=
  ⟨by decide, by decide, by decide,
    resolver_leaves_valid_refs [("x", 9)] [amodelValid] 0 0 amodelValid
      "media_profile" ⟨⟨RefKind.globalK, some (uuidStr 42)⟩⟩
      (by decide) (by decide) (by decide)⟩

/-- One creation attempt appends exactly one creation event to the trace. -/
theorem create_parcel_trace (api : Nat → Option Nat) (st : BuildState)
    (p : UcParcel) :
    ((create_parcel api st p).1).trace =
      st.trace ++ [BuildEvent.createParcel p] := by
  unfold create_parcel
  cases api st.k <;> rfl

/-- The third loop of `build` never discards trace entries. -/
theorem buildPwasLoop_trace_mono (api : Nat → Option Nat)
    (l : List UcParcel) : ∀ (st : BuildState) (e : BuildEvent),
    e ∈ st.trace → e ∈ (buildPwasLoop api st l).trace := by
  induction l with
  | nil => intro st e h; exact h
  | cons p rest ih =>
    intro st e h
    show e ∈ (buildPwasLoop api _ rest).trace
    apply ih
    rw [create_parcel_trace]
    exact List.mem_append_left _ h

/-- The resolution step keeps the parcel's name. -/
theorem resolvePwa_name (pushed : List (String × Nat)) (p : UcParcel) :
    (resolvePwa pushed p).parcel_name = p.parcel_name := by
  unfold resolvePwa
  by_cases h : p.association.isEmpty <;> simp [h]

/-- Every parcel handed to the third loop of `build` gets a creation
attempt, whatever its associations resolve to. -/
theorem buildPwasLoop_creates (api : Nat → Option Nat) (l : List UcParcel) :
    ∀ (st : BuildState) (p : UcParcel), p ∈ l →
    ∃ p', BuildEvent.createParcel p' ∈ (buildPwasLoop api st l).trace ∧
      p'.parcel_name = p.parcel_name := by
  induction l with
  | nil => intro st p h; cases h
  | cons q rest ih =>
    intro st p h
    rcases List.mem_cons.mp h with rfl | hmem
    · refine ⟨resolvePwa st.pushed p, ?_, resolvePwa_name st.pushed p⟩
      show _ ∈ (buildPwasLoop api _ rest).trace
      apply buildPwasLoop_trace_mono
      rw [create_parcel_trace]
      exact List.mem_append_right _ (List.mem_singleton_self _)
    · exact ih _ p hmem

/-- C4: an association field holding a name absent from the map of created
associable parcels is rewritten to the `Default[None]` sentinel, a warning
naming the field, the value, and the owning model is emitted, the
resolution raises nothing, and the owning parcel is still submitted for
creation by `build`. -/
theorem resolver_nulls_unresolved (pushed : List (String × Nat))
    (assoc : List AModel) (i j : Nat) (m : AModel) (fname s : String)
    (item : RefIdItem) (hm : assoc[i]? = some m)
    (hf : m.fields[j]? = some (fname, FieldAttr.refItem item))
    (hfield : fname ∈ ASSOCIATON_FIELDS)
    (hs : item.ref_id.value = some s)
    (hbad : is_uuid (some s) = false)
    (hmiss : pushed.lookup s = none) :
    (∃ m', (populate_association pushed assoc).1[i]? = some m' ∧
      m'.fields[j]? = some (fname, FieldAttr.refItem ⟨as_default_none⟩)) ∧
    ((⟨fname, s, m.className⟩ : UnresolvedWarning) ∈
      (populate_association pushed assoc).2) ∧
    (∀ (api : Nat → Option Nat) (profileUuid : Nat) (b : UcVoiceBuilder),
      ∀ p ∈ b.parcelsWithAssociations,
      ∃ p', BuildEvent.createParcel p' ∈ (build api profileUuid b).trace ∧
        p'.parcel_name = p.parcel_name) := by
  refine ⟨⟨(populateModel pushed m).1,
    populate_association_getElem pushed assoc i m hm, ?_⟩, ?_, ?_⟩
  · rw [populateModel_fields_getElem pushed m j fname (FieldAttr.refItem item) hf]
    simp [hfield,
      populateAttr_unresolved pushed m.className fname s item hs hbad hmiss]
  · have hmm : m ∈ assoc := List.getElem?_mem hm
    have hfm : (fname, FieldAttr.refItem item) ∈ m.fields :=
      List.getElem?_mem hf
    apply List.mem_flatten.mpr
    refine ⟨(populateModel pushed m).2, ?_, ?_⟩
    · exact List.mem_map_of_mem Prod.snd
        (List.mem_map_of_mem (populateModel pushed) hmm)
    · show _ ∈ (populateModel pushed m).2
      simp only [populateModel, List.map_map]
      apply List.mem_flatten.mpr
      refine ⟨[⟨fname, s, m.className⟩], ?_, List.mem_singleton_self _⟩
      have hc : ASSOCIATON_FIELDS.contains fname = true := by simpa using hfield
      have himg :
          (Prod.snd ∘ fun fa : String × FieldAttr =>
            if ASSOCIATON_FIELDS.contains fa.1 then
              ((fa.1, (populateAttr pushed m.className fa.1 fa.2).1),
                (populateAttr pushed m.className fa.1 fa.2).2)
            else (fa, ([] : List UnresolvedWarning)))
            (fname, FieldAttr.refItem item) = [⟨fname, s, m.className⟩] := by
        simp [hc,
          populateAttr_unresolved pushed m.className fname s item hs hbad hmiss,
          hfield]
      exact himg ▸ List.mem_map_of_mem _ hfm
  · intro api profileUuid b p hp
    show ∃ p', _ ∈ (buildPwasLoop api _ b.parcelsWithAssociations).trace ∧ _
    exact buildPwasLoop_creates api b.parcelsWithAssociations _ p hp

/-- Witness for C4: the name "TPP" is absent from the pushed map, so the
field is nulled to the sentinel and a warning is collected. -/
theorem resolver_nulls_unresolved_witness :
    ([amodelDangling][0]? = some amodelDangling) ∧
    (amodelDangling.fields[0]? = some ("translation_profile",
      FieldAttr.refItem ⟨⟨RefKind.globalK, some "TPP"⟩⟩)) ∧
    ("translation_profile" ∈ ASSOCIATON_FIELDS) ∧
    ((⟨⟨RefKind.globalK, some "TPP"⟩⟩ : RefIdItem).ref_id.value = some "TPP") ∧
    (is_uuid (some "TPP") = false) ∧
    (([("MP", 3)] : List (String × Nat)).lookup "TPP" = none) ∧
    ((∃ m', (populate_association [("MP", 3)] [amodelDangling]).1[0]? = some m' ∧
      m'.fields[0]? = some ("translation_profile",
        FieldAttr.refItem ⟨as_default_none⟩)) ∧
    ((⟨"translation_profile", "TPP", amodelDangling.className⟩ :
        UnresolvedWarning) ∈
      (populate_association [("MP", 3)] [amodelDangling]).2) ∧
    (∀ (api : Nat → Option Nat) (profileUuid : Nat) (b : UcVoiceBuilder),
      ∀ p ∈ b.parcelsWithAssociations,
      ∃ p', BuildEvent.createParcel p' ∈ (build api profileUuid b).trace ∧
        p'.parcel_name = p.parcel_name)) :=
  ⟨by decide, by decide, by decide, by decide, by decide, by decide,
    resolver_nulls_unresolved [("MP", 3)] [amodelDangling] 0 0 amodelDangling
      "translation_profile" "TPP" ⟨⟨RefKind.globalK, some "TPP"⟩⟩
      (by decide) (by decide) (by decide) (by decide) (by decide) (by decide)⟩

/-- One creation attempt in full: the state update and the oracle reply. -/
theorem create_parcel_eq (api : Nat → Option Nat) (st : BuildState)
    (p : UcParcel) :
    create_parcel api st p =
      ({ st with
          k := st.k + 1,
          trace := st.trace ++ [BuildEvent.createParcel p],
          created := if (api st.k).isSome then st.created ++ [p.parcel_name]
            else st.created,
          failed := if (api st.k).isSome then st.failed
            else st.failed ++ [p.parcel_name] },
        api st.k) := by
  cases h : api st.k <;> simp [create_parcel, h]

/-- The state reached by `_create_translation_profile`: the called rule,
then the calling rule, then the composite carrying the returned sub-rule
identifiers, with the pushed map untouched. -/
theorem create_translation_profile_spec (api : Nat → Option Nat)
    (st : BuildState) (tp : TranslationProfile) :
    (create_translation_profile api st tp).1.trace =
      st.trace ++ tpSegment api st.k tp ∧
    (create_translation_profile api st tp).1.pushed = st.pushed ∧
    (create_translation_profile api st tp).1.k = st.k + countRules tp + 1 ∧
    (create_translation_profile api st tp).2 = api (st.k + countRules tp) := by
  rcases tp with ⟨tpp, calling, called⟩
  cases called with
  | none =>
    cases calling with
    | none =>
      refine ⟨?_, ?_, ?_, ?_⟩ <;>
        simp [create_translation_profile, create_parcel_eq, tpSegment,
          optRuleTrace, tpComposite, applyRef, countRules]
    | some rq =>
      cases h : api st.k with
      | none =>
        refine ⟨?_, ?_, ?_, ?_⟩ <;>
          simp [create_translation_profile, create_parcel_eq, h, tpSegment,
            optRuleTrace, tpComposite, applyRef, countRules]
      | some u =>
        refine ⟨?_, ?_, ?_, ?_⟩ <;>
          simp [create_translation_profile, create_parcel_eq, h, tpSegment,
            optRuleTrace, tpComposite, applyRef, countRules]
  | some rd =>
    cases calling with
    | none =>
      cases h : api st.k with
      | none =>
        refine ⟨?_, ?_, ?_, ?_⟩ <;>
          simp [create_translation_profile, create_parcel_eq, h, tpSegment,
            optRuleTrace, tpComposite, applyRef, countRules]
      | some u =>
        refine ⟨?_, ?_, ?_, ?_⟩ <;>
          simp [create_translation_profile, create_parcel_eq, h, tpSegment,
            optRuleTrace, tpComposite, applyRef, countRules]
    | some rq =>
      cases h : api st.k with
      | none =>
        cases h2 : api (st.k + 1) with
        | none =>
          refine ⟨?_, ?_, ?_, ?_⟩ <;>
            simp [create_translation_profile, create_parcel_eq, h, h2,
              tpSegment, optRuleTrace, tpComposite, applyRef, countRules]
        | some v =>
          refine ⟨?_, ?_, ?_, ?_⟩ <;>
            simp [create_translation_profile, create_parcel_eq, h, h2,
              tpSegment, optRuleTrace, tpComposite, applyRef, countRules]
      | some u =>
        cases h2 : api (st.k + 1) with
        | none =>
          refine ⟨?_, ?_, ?_, ?_⟩ <;>
            simp [create_translation_profile, create_parcel_eq, h, h2,
              tpSegment, optRuleTrace, tpComposite, applyRef, countRules]
        | some v =>
          refine ⟨?_, ?_, ?_, ?_⟩ <;>
            simp [create_translation_profile, create_parcel_eq, h, h2,
              tpSegment, optRuleTrace, tpComposite, applyRef, countRules]

/-- The first loop of `build` in full: one creation event per independent
parcel in order; the pushed map grows only by names of associable parcels
of the list. -/
theorem buildIndependentsLoop_spec (api : Nat → Option Nat)
    (l : List UcParcel) : ∀ st : BuildState,
    (buildIndependentsLoop api st l).trace =
      st.trace ++ l.map BuildEvent.createParcel ∧
    (buildIndependentsLoop api st l).k = st.k + l.length ∧
    ∃ extra : List (String × Nat),
      (buildIndependentsLoop api st l).pushed = extra ++ st.pushed ∧
      ∀ e ∈ extra, ∃ p ∈ l, associableKind p.kind = true ∧
        e.1 = p.parcel_name := by
  induction l with
  | nil =>
    intro st
    refine ⟨by simp [buildIndependentsLoop], by simp [buildIndependentsLoop],
      [], by simp [buildIndependentsLoop], by simp⟩
  | cons p rest ih =>
    intro st
    simp only [buildIndependentsLoop, create_parcel_eq]
    cases h : api st.k with
    | none =>
      dsimp only
      obtain ⟨ht, hk, extra, hp, hprop⟩ := ih _
      refine ⟨?_, ?_, extra, ?_, ?_⟩
      · rw [ht]; simp
      · rw [hk]
        show st.k + 1 + rest.length = st.k + (p :: rest).length
        simp only [List.length_cons]
        omega
      · rw [hp]
      · intro e he
        obtain ⟨q, hq, hqa, hqn⟩ := hprop e he
        exact ⟨q, List.mem_cons_of_mem p hq, hqa, hqn⟩
    | some u =>
      cases ha : associableKind p.kind with
      | false =>
        dsimp only [ha]
        rw [if_neg (by simp)]
        obtain ⟨ht, hk, extra, hp, hprop⟩ := ih _
        refine ⟨?_, ?_, extra, ?_, ?_⟩
        · rw [ht]; simp
        · rw [hk]
          show st.k + 1 + rest.length = st.k + (p :: rest).length
          simp only [List.length_cons]
          omega
        · rw [hp]
        · intro e he
          obtain ⟨q, hq, hqa, hqn⟩ := hprop e he
          exact ⟨q, List.mem_cons_of_mem p hq, hqa, hqn⟩
      | true =>
        dsimp only [ha]
        rw [if_pos rfl]
        obtain ⟨ht, hk, extra, hp, hprop⟩ := ih _
        refine ⟨?_, ?_, extra ++ [(p.parcel_name, u)], ?_, ?_⟩
        · rw [ht]; simp
        · rw [hk]
          show st.k + 1 + rest.length = st.k + (p :: rest).length
          simp only [List.length_cons]
          omega
        · rw [hp]; simp
        · intro e he
          rcases List.mem_append.mp he with he1 | he2
          · obtain ⟨q, hq, hqa, hqn⟩ := hprop e he1
            exact ⟨q, List.mem_cons_of_mem p hq, hqa, hqn⟩
          · have : e = (p.parcel_name, u) := List.mem_singleton.mp he2
            subst this
            exact ⟨p, List.mem_cons_self p rest, ha, rfl⟩

/-- The second loop of `build` in full: per composite, the called rule, the
calling rule, then the composite carrying the returned sub-rule
identifiers; the pushed map grows only by the composites' names. -/
theorem buildTpsLoop_spec (api : Nat → Option Nat)
    (l : List TranslationProfile) : ∀ st : BuildState,
    (buildTpsLoop api st l).trace = st.trace ++ tpsTrace api st.k l ∧
    (buildTpsLoop api st l).k = st.k + rulesTotal l ∧
    ∃ extra : List (String × Nat),
      (buildTpsLoop api st l).pushed = extra ++ st.pushed ∧
      ∀ e ∈ extra, ∃ tp ∈ l, e.1 = tp.tpp.parcel_name := by
  induction l with
  | nil =>
    intro st
    refine ⟨by simp [buildTpsLoop, tpsTrace], by simp [buildTpsLoop, rulesTotal],
      [], by simp [buildTpsLoop], by simp⟩
  | cons tp rest ih =>
    intro st
    obtain ⟨hct, hcp, hck, hcr⟩ := create_translation_profile_spec api st tp
    simp only [buildTpsLoop]
    rw [hcr]
    cases hres : api (st.k + countRules tp) with
    | none =>
      dsimp only
      obtain ⟨ht, hk, extra, hp, hprop⟩ := ih _
      refine ⟨?_, ?_, extra, ?_, ?_⟩
      · rw [ht, hct, hck]
        simp [tpsTrace, List.append_assoc]
      · rw [hk, hck]
        simp [rulesTotal]
        omega
      · rw [hp, hcp]
      · intro e he
        obtain ⟨q, hq, hqn⟩ := hprop e he
        exact ⟨q, List.mem_cons_of_mem tp hq, hqn⟩
    | some u =>
      dsimp only
      obtain ⟨ht, hk, extra, hp, hprop⟩ := ih _
      refine ⟨?_, ?_, extra ++ [(tp.tpp.parcel_name, u)], ?_, ?_⟩
      · rw [ht]
        show (create_translation_profile api st tp).1.trace ++ _ = _
        rw [hct, hck]
        simp [tpsTrace, List.append_assoc]
      · rw [hk]
        show (create_translation_profile api st tp).1.k + rulesTotal rest = _
        rw [hck]
        simp [rulesTotal]
        omega
      · rw [hp]
        show extra ++ ((tp.tpp.parcel_name, u) ::
          (create_translation_profile api st tp).1.pushed) = _
        rw [hcp]
        simp
      · intro e he
        rcases List.mem_append.mp he with he1 | he2
        · obtain ⟨q, hq, hqn⟩ := hprop e he1
          exact ⟨q, List.mem_cons_of_mem tp hq, hqn⟩
        · have : e = (tp.tpp.parcel_name, u) := List.mem_singleton.mp he2
          subst this
          exact ⟨tp, List.mem_cons_self tp rest, rfl⟩

/-- The third loop of `build` in full: one creation event per
association-carrying parcel, in order, each resolved against the pushed
map as it stood when the loop began (the loop itself never adds to it). -/
theorem buildPwasLoop_spec (api : Nat → Option Nat) (l : List UcParcel) :
    ∀ st : BuildState,
    (buildPwasLoop api st l).trace =
      st.trace ++ l.map (fun p => BuildEvent.createParcel (resolvePwa st.pushed p)) ∧
    (buildPwasLoop api st l).pushed = st.pushed := by
  induction l with
  | nil => intro st; exact ⟨by simp [buildPwasLoop], rfl⟩
  | cons p rest ih =>
    intro st
    simp only [buildPwasLoop, create_parcel_eq]
    obtain ⟨ht, hp⟩ := ih _
    refine ⟨?_, ?_⟩
    · rw [ht]
      show st.trace ++ [BuildEvent.createParcel (resolvePwa st.pushed p)] ++
        rest.map (fun q => BuildEvent.createParcel (resolvePwa st.pushed q)) = _
      simp
    · rw [hp]

/-- C2: `build` issues its creation calls in three strict phases after the
profile creation: first every independent parcel in order; then every
translation-profile composite, each segment creating the called and
calling sub-rules first and the composite last, with the identifiers the
creations returned inserted into the composite before it is submitted
(`tpSegment`/`tpComposite`); and finally every association-carrying
parcel, resolved against the pushed map accumulated from phases one and
two — a map containing only names of created associable independent
parcels and of created composites. -/
theorem uc_build_three_phases (api : Nat → Option Nat) (profileUuid : Nat)
    (b : UcVoiceBuilder) :
    ∃ pushed2 : List (String × Nat),
      (build api profileUuid b).trace =
        BuildEvent.createProfile profileUuid ::
          (b.independent.map BuildEvent.createParcel ++
           tpsTrace api b.independent.length b.translationProfiles ++
           b.parcelsWithAssociations.map
             (fun p => BuildEvent.createParcel (resolvePwa pushed2 p))) ∧
      (∀ e ∈ pushed2,
        (∃ p ∈ b.independent, associableKind p.kind = true ∧
          e.1 = p.parcel_name) ∨
        (∃ tp ∈ b.translationProfiles, e.1 = tp.tpp.parcel_name)) := by
  unfold build
  dsimp only
  obtain ⟨h1t, h1k, e1, h1p, h1prop⟩ :=
    buildIndependentsLoop_spec api b.independent
      { k := 0, pushed := [], created := [], failed := [],
        trace := [BuildEvent.createProfile profileUuid] }
  obtain ⟨h2t, h2k, e2, h2p, h2prop⟩ :=
    buildTpsLoop_spec api b.translationProfiles
      (buildIndependentsLoop api
        { k := 0, pushed := [], created := [], failed := [],
          trace := [BuildEvent.createProfile profileUuid] } b.independent)
  obtain ⟨h3t, h3p⟩ :=
    buildPwasLoop_spec api b.parcelsWithAssociations
      (buildTpsLoop api
        (buildIndependentsLoop api
          { k := 0, pushed := [], created := [], failed := [],
            trace := [BuildEvent.createProfile profileUuid] } b.independent)
        b.translationProfiles)
  refine ⟨(buildTpsLoop api
      (buildIndependentsLoop api
        { k := 0, pushed := [], created := [], failed := [],
          trace := [BuildEvent.createProfile profileUuid] } b.independent)
      b.translationProfiles).pushed, ?_, ?_⟩
  · rw [h3t, h2t, h1t, h1k]
    show [BuildEvent.createProfile profileUuid] ++
      b.independent.map BuildEvent.createParcel ++
      tpsTrace api (0 + b.independent.length) b.translationProfiles ++ _ = _
    rw [Nat.zero_add]
    simp [List.append_assoc]
  · intro e he
    rw [h2p, h1p] at he
    rcases List.mem_append.mp he with he2 | he1
    · obtain ⟨tp, htp, hn⟩ := h2prop e he2
      exact Or.inr ⟨tp, htp, hn⟩
    · rcases List.mem_append.mp he1 with he1a | he1b
      · obtain ⟨p, hp, ha, hn⟩ := h1prop e he1a
        exact Or.inl ⟨p, hp, ha, hn⟩
      · cases he1b

/-- One template-loop iteration acts on the four category sets as a function
of the resolved node alone; the mapping plays no part. -/
theorem bucketStep_sets (rtt : GeneralTemplateT → GeneralTemplateT)
    (bs : BucketState) (t : GeneralTemplateT) :
    bucketSetsOf (bucketStep rtt bs t) =
      bucketSetsUpd (resolveIfVpn rtt t) (bucketSetsOf bs) := by
  unfold bucketStep bucketSetsUpd bucketSetsOf
  dsimp only
  split_ifs <;> rfl

/-- Two template-loop folds whose input lists agree after resolution and
whose starting category sets agree produce the same category sets,
whatever their mappings hold. -/
theorem bucketFold_sets_congr (rtt : GeneralTemplateT → GeneralTemplateT)
    (l1 : List GeneralTemplateT) : ∀ (l2 : List GeneralTemplateT)
    (b1 b2 : BucketState),
    l1.map (resolveIfVpn rtt) = l2.map (resolveIfVpn rtt) →
    bucketSetsOf b1 = bucketSetsOf b2 →
    bucketSetsOf (l1.foldl (bucketStep rtt) b1) =
      bucketSetsOf (l2.foldl (bucketStep rtt) b2) := by
  induction l1 with
  | nil =>
    intro l2 b1 b2 hl hb
    cases l2 with
    | nil => exact hb
    | cons t2 ts2 => simp at hl
  | cons t1 ts1 ih =>
    intro l2 b1 b2 hl hb
    cases l2 with
    | nil => simp at hl
    | cons t2 ts2 =>
      simp only [List.map_cons, List.cons.injEq] at hl
      simp only [List.foldl_cons]
      exact ih ts2 _ _ hl.2
        (by rw [bucketStep_sets, bucketStep_sets, hl.1, hb])

/-- Processing of one device template in full: its four profiles (with the
bucketed subelement sets), its config group referencing exactly the four
fresh origins, and the mutated device template, appended in order. -/
theorem transformDT_spec (rtt : GeneralTemplateT → GeneralTemplateT)
    (st : DTLoopState) (dt : DeviceTemplateWithInfo) :
    (transformDT rtt st dt).profiles =
      st.profiles ++ dtProfiles rtt dt st.freshCounter ∧
    (transformDT rtt st dt).groups =
      st.groups ++ [dtGroup dt st.freshCounter] ∧
    (transformDT rtt st dt).dts =
      st.dts ++ [mutatedDeviceTemplate rtt dt] ∧
    (transformDT rtt st dt).freshCounter = st.freshCounter + 4 := by
  have h := bucketFold_sets_congr rtt (flattenedTemplates dt.general_templates)
    (flattenedTemplates dt.general_templates)
    { sys := ∅, oth := ∅, srv := ∅, trp := ∅, mapping := st.mapping }
    { sys := ∅, oth := ∅, srv := ∅, trp := ∅, mapping := fun _ => ∅ } rfl rfl
  have hsys : ((flattenedTemplates dt.general_templates).foldl (bucketStep rtt)
      { sys := ∅, oth := ∅, srv := ∅, trp := ∅, mapping := st.mapping }).sys =
      (dtBuckets rtt dt).sys := congrArg (fun q => q.1) h
  have hoth : ((flattenedTemplates dt.general_templates).foldl (bucketStep rtt)
      { sys := ∅, oth := ∅, srv := ∅, trp := ∅, mapping := st.mapping }).oth =
      (dtBuckets rtt dt).oth := congrArg (fun q => q.2.1) h
  have hsrv : ((flattenedTemplates dt.general_templates).foldl (bucketStep rtt)
      { sys := ∅, oth := ∅, srv := ∅, trp := ∅, mapping := st.mapping }).srv =
      (dtBuckets rtt dt).srv := congrArg (fun q => q.2.2.1) h
  have htrp : ((flattenedTemplates dt.general_templates).foldl (bucketStep rtt)
      { sys := ∅, oth := ∅, srv := ∅, trp := ∅, mapping := st.mapping }).trp =
      (dtBuckets rtt dt).trp := congrArg (fun q => q.2.2.2) h
  refine ⟨?_, rfl, rfl, rfl⟩
  unfold transformDT dtProfiles fpSystemOf fpOtherOf fpServiceOf fpTransportOf
  dsimp only
  rw [← hsys, ← hoth, ← hsrv, ← htrp]

/-- The device-template loop of `transform` in full. -/
theorem transformDTsLoop_spec (rtt : GeneralTemplateT → GeneralTemplateT)
    (l : List DeviceTemplateWithInfo) : ∀ st : DTLoopState,
    (transformDTsLoop rtt st l).profiles =
      st.profiles ++ dtsProfiles rtt l st.freshCounter ∧
    (transformDTsLoop rtt st l).groups =
      st.groups ++ dtsGroups l st.freshCounter ∧
    (transformDTsLoop rtt st l).dts =
      st.dts ++ l.map (mutatedDeviceTemplate rtt) := by
  induction l with
  | nil =>
    intro st
    exact ⟨by simp [transformDTsLoop, dtsProfiles],
      by simp [transformDTsLoop, dtsGroups], by simp [transformDTsLoop]⟩
  | cons dt rest ih =>
    intro st
    obtain ⟨hdp, hdg, hdd, hdf⟩ := transformDT_spec rtt st dt
    obtain ⟨hp, hg, hd⟩ := ih (transformDT rtt st dt)
    refine ⟨?_, ?_, ?_⟩
    · rw [show transformDTsLoop rtt st (dt :: rest) =
        transformDTsLoop rtt (transformDT rtt st dt) rest from rfl]
      rw [hp, hdp, hdf]
      simp [dtsProfiles, List.append_assoc]
    · rw [show transformDTsLoop rtt st (dt :: rest) =
        transformDTsLoop rtt (transformDT rtt st dt) rest from rfl]
      rw [hg, hdg, hdf]
      simp [dtsGroups, List.append_assoc]
    · rw [show transformDTsLoop rtt st (dt :: rest) =
        transformDTsLoop rtt (transformDT rtt st dt) rest from rfl]
      rw [hd, hdd]
      simp [List.append_assoc]

/-- A successful `transform` run in full: the feature profiles and config
groups are those synthesized by the device-template loop (four profiles
and one group per device template), whenever the merge hook only touches
parcels; the returned input state carries the mutated device templates. -/
theorem transform_ok_spec
    (cpft : FeatureTemplateInformation → Except String ServiceParcelClass)
    (cvt : PolicyListInfo → Except String ServiceParcelClass)
    (rtt : GeneralTemplateT → GeneralTemplateT)
    (mergeP : UX2Config → UX2Config) (ux1 : UX1Config) (fresh : Nat)
    (out : UX2Config) (ux1' : UX1Config) (fresh' : Nat)
    (hm1 : ∀ u, (mergeP u).feature_profiles = u.feature_profiles)
    (hm2 : ∀ u, (mergeP u).config_groups = u.config_groups)
    (h : transform cpft cvt rtt mergeP ux1 fresh =
      Except.ok (out, ux1', fresh')) :
    out.feature_profiles =
      dtsProfiles rtt ux1.templates.device_templates fresh ∧
    out.config_groups = dtsGroups ux1.templates.device_templates fresh ∧
    ux1'.templates.device_templates =
      ux1.templates.device_templates.map (mutatedDeviceTemplate rtt) ∧
    ux1'.templates.feature_templates = ux1.templates.feature_templates ∧
    ux1'.policies = ux1.policies := by
  obtain ⟨hp, hg, hd⟩ := transformDTsLoop_spec rtt ux1.templates.device_templates
    { profiles := [], groups := [], mapping := fun _ => ∅, dts := [],
      freshCounter := fresh }
  unfold transform at h
  dsimp only at h
  cases hft : transformFTsLoop cpft
      (transformDTsLoop rtt
        { profiles := [], groups := [], mapping := fun _ => ∅, dts := [],
          freshCounter := fresh } ux1.templates.device_templates).mapping
      ux1.templates.feature_templates with
  | error e =>
    rw [hft] at h
    exact absurd h (by simp)
  | ok ps =>
    rw [hft] at h
    simp only [Except.ok.injEq, Prod.mk.injEq] at h
    obtain ⟨ho, hu, hfr⟩ := h
    refine ⟨?_, ?_, ?_, ?_, ?_⟩
    · rw [← ho, hm1]
      show (transformDTsLoop rtt _ ux1.templates.device_templates).profiles = _
      rw [hp]
      simp
    · rw [← ho, hm2]
      show (transformDTsLoop rtt _ ux1.templates.device_templates).groups = _
      rw [hg]
      simp
    · rw [← hu]
      show (transformDTsLoop rtt _ ux1.templates.device_templates).dts = _
      rw [hd]
      simp
    · rw [← hu]
    · rw [← hu]

/-- Four profiles per device template. -/
theorem dtsProfiles_length (rtt : GeneralTemplateT → GeneralTemplateT)
    (l : List DeviceTemplateWithInfo) : ∀ n : Nat,
    (dtsProfiles rtt l n).length = 4 * l.length := by
  induction l with
  | nil => intro n; rfl
  | cons dt rest ih =>
    intro n
    simp only [dtsProfiles, List.length_append, ih (n + 4), dtProfiles]
    simp
    omega

/-- One config group per device template. -/
theorem dtsGroups_length (l : List DeviceTemplateWithInfo) : ∀ n : Nat,
    (dtsGroups l n).length = l.length := by
  induction l with
  | nil => intro n; rfl
  | cons dt rest ih =>
    intro n
    simp only [dtsGroups, List.length_cons, ih (n + 4)]

/-- The `i`-th config group belongs to the `i`-th device template and
references the four fresh origins starting at `n + 4 * i`. -/
theorem dtsGroups_getElem (l : List DeviceTemplateWithInfo) : ∀ (n i : Nat)
    (dt : DeviceTemplateWithInfo), l[i]? = some dt →
    (dtsGroups l n)[i]? = some (dtGroup dt (n + 4 * i)) := by
  induction l with
  | nil => intro n i dt h; simp at h
  | cons d rest ih =>
    intro n i dt h
    cases i with
    | zero =>
      simp only [List.getElem?_cons_zero, Option.some.injEq] at h
      subst h
      simp [dtsGroups]
    | succ i =>
      simp only [List.getElem?_cons_succ] at h
      have := ih (n + 4) i dt h
      have harith : n + 4 + 4 * i = n + 4 * (i + 1) := by omega
      rw [harith] at this
      simpa [dtsGroups] using this

/-- The four profiles of the `i`-th device template sit at positions
`4 * i` through `4 * i + 3`, in the order system, other, service,
transport, with fresh origins `n + 4 * i` through `n + 4 * i + 3`. -/
theorem dtsProfiles_getElem (rtt : GeneralTemplateT → GeneralTemplateT)
    (l : List DeviceTemplateWithInfo) : ∀ (n i : Nat)
    (dt : DeviceTemplateWithInfo), l[i]? = some dt →
    (dtsProfiles rtt l n)[4 * i]? = some (fpSystemOf rtt dt (n + 4 * i)) ∧
    (dtsProfiles rtt l n)[4 * i + 1]? = some (fpOtherOf rtt dt (n + 4 * i)) ∧
    (dtsProfiles rtt l n)[4 * i + 2]? = some (fpServiceOf rtt dt (n + 4 * i)) ∧
    (dtsProfiles rtt l n)[4 * i + 3]? = some (fpTransportOf rtt dt (n + 4 * i)) := by
  induction l with
  | nil => intro n i dt h; simp at h
  | cons d rest ih =>
    intro n i dt h
    cases i with
    | zero =>
      simp only [List.getElem?_cons_zero, Option.some.injEq] at h
      subst h
      refine ⟨?_, ?_, ?_, ?_⟩ <;> simp [dtsProfiles, dtProfiles]
    | succ i =>
      simp only [List.getElem?_cons_succ] at h
      obtain ⟨h0, h1, h2, h3⟩ := ih (n + 4) i dt h
      have harith : n + 4 + 4 * i = n + 4 * (i + 1) := by omega
      rw [harith] at h0 h1 h2 h3
      have hlen : (dtProfiles rtt d n).length = 4 := rfl
      refine ⟨?_, ?_, ?_, ?_⟩ <;>
        · rw [show dtsProfiles rtt (d :: rest) n =
            dtProfiles rtt d n ++ dtsProfiles rtt rest (n + 4) from rfl]
          rw [List.getElem?_append_right (by rw [hlen]; omega)]
          rw [hlen]
          first
            | (rw [show 4 * (i + 1) - 4 = 4 * i from by omega]; exact h0)
            | (rw [show 4 * (i + 1) + 1 - 4 = 4 * i + 1 from by omega]; exact h1)
            | (rw [show 4 * (i + 1) + 2 - 4 = 4 * i + 2 from by omega]; exact h2)
            | (rw [show 4 * (i + 1) + 3 - 4 = 4 * i + 3 from by omega]; exact h3)

/-- The feature-template loop succeeds whenever the converter succeeds on
every supported template it is handed. -/
theorem transformFTsLoop_ok
    (cpft : FeatureTemplateInformation → Except String ServiceParcelClass)
    (mapping : Nat → Finset Nat) :
    ∀ fts : List FeatureTemplateInformation,
    (∀ ft ∈ fts, SUPPORTED_TEMPLATE_TYPES.contains ft.template_type = true →
      (cpft ft).isOk = true) →
    ∃ ps, transformFTsLoop cpft mapping fts = Except.ok ps := by
  intro fts
  induction fts with
  | nil => intro _; exact ⟨[], rfl⟩
  | cons ft rest ih =>
    intro hft
    obtain ⟨ps, hps⟩ := ih fun f hf hs => hft f (List.mem_cons_of_mem ft hf) hs
    by_cases hsup : SUPPORTED_TEMPLATE_TYPES.contains ft.template_type = true
    · have hok := hft ft (List.mem_cons_self ft rest) hsup
      cases hcp : cpft ft with
      | error e => rw [hcp] at hok; simp [Except.isOk, Except.toBool] at hok
      | ok parcel =>
        simp only [transformFTsLoop, hsup, if_true, hcp, hps]
        exact ⟨_, rfl⟩
    · simp only [transformFTsLoop, hsup, if_false]
      exact ⟨ps, hps⟩

/-- C1: a successful `transform` produces exactly four feature profiles per
device template — one each of type system, other, service, transport, at
positions `4i` to `4i+3` — and exactly one config group per device
template whose `header.subelements` is exactly the set of the four freshly
generated profile origins; for a device template with no general templates
all four category sets are empty, and a config with no leaf feature
templates (and no policy lists) still transforms without error into a
config whose profiles and groups carry no parcels at all. -/
theorem transform_four_profiles_one_group
    (cpft : FeatureTemplateInformation → Except String ServiceParcelClass)
    (cvt : PolicyListInfo → Except String ServiceParcelClass)
    (rtt : GeneralTemplateT → GeneralTemplateT)
    (mergeP : UX2Config → UX2Config) (ux1 : UX1Config) (fresh : Nat)
    (out : UX2Config) (ux1' : UX1Config) (fresh' : Nat)
    (hm1 : ∀ u, (mergeP u).feature_profiles = u.feature_profiles)
    (hm2 : ∀ u, (mergeP u).config_groups = u.config_groups)
    (hm3 : ∀ u, u.profile_parcels = [] → (mergeP u).profile_parcels = [])
    (h : transform cpft cvt rtt mergeP ux1 fresh =
      Except.ok (out, ux1', fresh')) :
    out.feature_profiles.length = 4 * ux1.templates.device_templates.length ∧
    out.config_groups.length = ux1.templates.device_templates.length ∧
    (∀ (i : Nat) (dt : DeviceTemplateWithInfo),
      ux1.templates.device_templates[i]? = some dt →
      out.config_groups[i]? = some (dtGroup dt (fresh + 4 * i)) ∧
      out.feature_profiles[4 * i]? = some (fpSystemOf rtt dt (fresh + 4 * i)) ∧
      out.feature_profiles[4 * i + 1]? =
        some (fpOtherOf rtt dt (fresh + 4 * i)) ∧
      out.feature_profiles[4 * i + 2]? =
        some (fpServiceOf rtt dt (fresh + 4 * i)) ∧
      out.feature_profiles[4 * i + 3]? =
        some (fpTransportOf rtt dt (fresh + 4 * i)) ∧
      (dt.general_templates = [] →
        bucketSetsOf (dtBuckets rtt dt) = (∅, ∅, ∅, ∅))) ∧
    (∀ (ux0 : UX1Config) (f0 : Nat),
      ux0.templates.feature_templates = [] →
      ux0.policies.policy_lists = [] →
      ∃ o u f, transform cpft cvt rtt mergeP ux0 f0 = Except.ok (o, u, f) ∧
        o.profile_parcels = []) := by
  obtain ⟨hfp, hcg, _, _, _⟩ := transform_ok_spec cpft cvt rtt mergeP ux1 fresh
    out ux1' fresh' hm1 hm2 h
  refine ⟨?_, ?_, ?_, ?_⟩
  · rw [hfp, dtsProfiles_length]
  · rw [hcg, dtsGroups_length]
  · intro i dt hdt
    obtain ⟨h0, h1, h2, h3⟩ :=
      dtsProfiles_getElem rtt ux1.templates.device_templates fresh i dt hdt
    refine ⟨?_, ?_, ?_, ?_, ?_, ?_⟩
    · rw [hcg]
      exact dtsGroups_getElem ux1.templates.device_templates fresh i dt hdt
    · rw [hfp]; exact h0
    · rw [hfp]; exact h1
    · rw [hfp]; exact h2
    · rw [hfp]; exact h3
    · intro hempty
      simp [dtBuckets, hempty, flattenedTemplates, bucketSetsOf]
  · intro ux0 f0 hf0 hp0
    have hftsok : transformFTsLoop cpft
        (transformDTsLoop rtt
          { profiles := [], groups := [], mapping := fun _ => ∅, dts := [],
            freshCounter := f0 } ux0.templates.device_templates).mapping
        ux0.templates.feature_templates = Except.ok [] := by
      rw [hf0]; rfl
    unfold transform
    dsimp only
    rw [hftsok, hp0]
    refine ⟨_, _, _, rfl, ?_⟩
    exact hm3 _ (by simp [transformPLsLoop])

/-- Witness for C1 at a config holding one device template with no general
templates: the run succeeds and yields its four empty profiles and one
group. -/
theorem transform_four_profiles_one_group_witness :
    ∃ out ux1' fresh',
      transform cpftOkAaa cvtOkColor id id ux1Empty 100 =
        Except.ok (out, ux1', fresh') ∧
      (out.feature_profiles.length =
        4 * ux1Empty.templates.device_templates.length ∧
      out.config_groups.length = ux1Empty.templates.device_templates.length ∧
      (∀ (i : Nat) (dt : DeviceTemplateWithInfo),
        ux1Empty.templates.device_templates[i]? = some dt →
        out.config_groups[i]? = some (dtGroup dt (100 + 4 * i)) ∧
        out.feature_profiles[4 * i]? = some (fpSystemOf id dt (100 + 4 * i)) ∧
        out.feature_profiles[4 * i + 1]? =
          some (fpOtherOf id dt (100 + 4 * i)) ∧
        out.feature_profiles[4 * i + 2]? =
          some (fpServiceOf id dt (100 + 4 * i)) ∧
        out.feature_profiles[4 * i + 3]? =
          some (fpTransportOf id dt (100 + 4 * i)) ∧
        (dt.general_templates = [] →
          bucketSetsOf (dtBuckets id dt) = (∅, ∅, ∅, ∅))) ∧
      (∀ (ux0 : UX1Config) (f0 : Nat),
        ux0.templates.feature_templates = [] →
        ux0.policies.policy_lists = [] →
        ∃ o u f, transform cpftOkAaa cvtOkColor id id ux0 f0 =
          Except.ok (o, u, f) ∧ o.profile_parcels = [])) := by
  refine ⟨_, _, _, rfl, ?_⟩
  exact transform_four_profiles_one_group cpftOkAaa cvtOkColor id id ux1Empty
    100 _ _ _ (fun u => rfl) (fun u => rfl) (fun u h => h) rfl

/-- Counterexample to C7 as stated: when the converter of a supported-type
leaf feature template raises its declared cannot-convert error, `transform`
does not return a `UX2Config`; the error escapes the feature-template loop,
which, unlike the policy-list loop, has no handler around the converter. -/
theorem transform_feature_conversion_error_escapes :
    transform cpftFails cvtOkColor id id ux1WithFt 0 =
      Except.error "Feature Template does not contain OSPFv3 configuration" := by
  rfl

/-- C7 (amended): a policy list whose converter raises its declared
conversion error is the only item excluded — the loop keeps exactly the
convertible lists, in order — and `transform` still returns a `UX2Config`
provided every supported-type leaf feature template converts; a
feature-template converter error, by contrast, propagates out of
`transform` (see the counterexample). -/
theorem transform_policy_error_isolated
    (cpft : FeatureTemplateInformation → Except String ServiceParcelClass)
    (cvt : PolicyListInfo → Except String ServiceParcelClass)
    (rtt : GeneralTemplateT → GeneralTemplateT)
    (mergeP : UX2Config → UX2Config) (ux1 : UX1Config) (fresh : Nat)
    (hft : ∀ ft ∈ ux1.templates.feature_templates,
      SUPPORTED_TEMPLATE_TYPES.contains ft.template_type = true →
      (cpft ft).isOk = true) :
    (∃ o u f, transform cpft cvt rtt mergeP ux1 fresh = Except.ok (o, u, f)) ∧
    (∀ pls : List PolicyListInfo,
      (transformPLsLoop cvt pls).1 =
        pls.filterMap fun pl => (cvt pl).toOption.map fun parcel =>
          ({ header :=
               { type := get_parcel_type parcel
                 origin := pl.list_id
                 subelements := ∅ }
             parcel := parcel } : TransformedParcelM)) := by
  constructor
  · obtain ⟨ps, hps⟩ := transformFTsLoop_ok cpft
      (transformDTsLoop rtt
        { profiles := [], groups := [], mapping := fun _ => ∅, dts := [],
          freshCounter := fresh } ux1.templates.device_templates).mapping
      ux1.templates.feature_templates hft
    unfold transform
    dsimp only
    rw [hps]
    exact ⟨_, _, _, rfl⟩
  · intro pls
    induction pls with
    | nil => rfl
    | cons pl rest ih =>
      cases hc : cvt pl with
      | ok parcel =>
        simp [transformPLsLoop, hc, ih, Except.toOption]
      | error e =>
        simp [transformPLsLoop, hc, ih, Except.toOption]

/-- Witness for C7 (amended) at one supported feature template and a
good/bad policy-list pair: the bad list is dropped, the good one kept. -/
theorem transform_policy_error_isolated_witness :
    (∀ ft ∈ ux1WithFt.templates.feature_templates,
      SUPPORTED_TEMPLATE_TYPES.contains ft.template_type = true →
      (cpftOkAaa ft).isOk = true) ∧
    ((∃ o u f, transform cpftOkAaa cvtSelective id id ux1WithFt 0 =
      Except.ok (o, u, f)) ∧
    (∀ pls : List PolicyListInfo,
      (transformPLsLoop cvtSelective pls).1 =
        pls.filterMap fun pl => (cvtSelective pl).toOption.map fun parcel =>
          ({ header :=
               { type := get_parcel_type parcel
                 origin := pl.list_id
                 subelements := ∅ }
             parcel := parcel } : TransformedParcelM))) :=
  ⟨by decide,
    transform_policy_error_isolated cpftOkAaa cvtSelective id id ux1WithFt 0
      (by decide)⟩

/-- Counterexample to C8 as stated: `transform` strips the sub-templates of
non-`cisco_vpn` nodes from its input in place, so running it twice on the
same config state gives feature profiles with different subelement sets
even ignoring the freshly generated identifiers — the first run buckets
the hoisted child, the second run no longer sees it. -/
theorem transform_second_run_differs :
    ∃ out1 ux1b n1 out2 ux1c n2,
      transform cpftOkAaa cvtOkColor id id ux1Nested 0 =
        Except.ok (out1, ux1b, n1) ∧
      transform cpftOkAaa cvtOkColor id id ux1b n1 =
        Except.ok (out2, ux1c, n2) ∧
      out1.feature_profiles.map fpHeaderProj ≠
        out2.feature_profiles.map fpHeaderProj := by
  refine ⟨_, _, _, _, _, _, rfl, rfl, ?_⟩
  decide

/-- With no sub-templates anywhere, flattening returns the list as-is. -/
theorem flattenedTemplates_of_no_subs (l : List GeneralTemplateT)
    (h : ∀ t ∈ l, t.subTemplates = []) : flattenedTemplates l = l := by
  induction l with
  | nil => rfl
  | cons t ts ih =>
    have ht : t.subTemplates = [] := h t (List.mem_cons_self t ts)
    have : hoists t = false := by simp [hoists, ht]
    simp [flattenedTemplates, this,
      ih fun q hq => h q (List.mem_cons_of_mem t hq)]

/-- With no sub-templates anywhere, the in-place flattening mutation is the
identity. -/
theorem flattenedMutation_of_no_subs (l : List GeneralTemplateT)
    (h : ∀ t ∈ l, t.subTemplates = []) : flattenedMutation l = l := by
  unfold flattenedMutation
  rw [List.map_congr_left, List.map_id]
  intro t htl
  have ht : t.subTemplates = [] := h t htl
  simp [hoists, ht]

/-- When the resolver never leaves the `cisco_vpn` tag behind, resolution is
idempotent. -/
theorem resolveIfVpn_idem (rtt : GeneralTemplateT → GeneralTemplateT)
    (hr3 : ∀ t, (rtt t).templateType ≠ "cisco_vpn") (t : GeneralTemplateT) :
    resolveIfVpn rtt (resolveIfVpn rtt t) = resolveIfVpn rtt t := by
  unfold resolveIfVpn
  by_cases hv : t.templateType = "cisco_vpn"
  · simp [hv, hr3 t]
  · simp [hv]

/-- A device template whose nodes carry no sub-templates buckets into the
same four category sets before and after the in-place mutation of one
`transform` run, provided the resolver keeps sub-templates and never
leaves the `cisco_vpn` tag behind. -/
theorem dtBuckets_mutated (rtt : GeneralTemplateT → GeneralTemplateT)
    (dt : DeviceTemplateWithInfo)
    (hsub : ∀ t ∈ dt.general_templates, t.subTemplates = [])
    (hr2 : ∀ t, (rtt t).subTemplates = t.subTemplates)
    (hr3 : ∀ t, (rtt t).templateType ≠ "cisco_vpn") :
    bucketSetsOf (dtBuckets rtt (mutatedDeviceTemplate rtt dt)) =
      bucketSetsOf (dtBuckets rtt dt) := by
  have hmut : (mutatedDeviceTemplate rtt dt).general_templates =
      dt.general_templates.map (resolveIfVpn rtt) := by
    show (flattenedMutation dt.general_templates).map (resolveIfVpn rtt) = _
    rw [flattenedMutation_of_no_subs dt.general_templates hsub]
  have hsub2 : ∀ t ∈ dt.general_templates.map (resolveIfVpn rtt),
      t.subTemplates = [] := by
    intro t ht
    obtain ⟨q, hq, rfl⟩ := List.mem_map.mp ht
    unfold resolveIfVpn
    by_cases hv : q.templateType = "cisco_vpn"
    · rw [if_pos hv, hr2 q]
      exact hsub q hq
    · rw [if_neg hv]
      exact hsub q hq
  unfold dtBuckets
  rw [hmut, flattenedTemplates_of_no_subs _ hsub2,
    flattenedTemplates_of_no_subs _ hsub]
  exact (bucketFold_sets_congr rtt dt.general_templates
    (dt.general_templates.map (resolveIfVpn rtt)) _ _
    (by rw [List.map_map]
        exact (List.map_congr_left fun t _ =>
          (resolveIfVpn_idem rtt hr3 t).symm)) rfl).symm

/-- Profile projections of the device-template loop are stable under the
in-place mutation, whatever the two runs' fresh counters. -/
theorem dtsProfiles_proj_stable (rtt : GeneralTemplateT → GeneralTemplateT)
    (hr2 : ∀ t, (rtt t).subTemplates = t.subTemplates)
    (hr3 : ∀ t, (rtt t).templateType ≠ "cisco_vpn") :
    ∀ (l : List DeviceTemplateWithInfo),
    (∀ dt ∈ l, ∀ t ∈ dt.general_templates, t.subTemplates = []) →
    ∀ n m : Nat,
    (dtsProfiles rtt l n).map fpHeaderProj =
      (dtsProfiles rtt (l.map (mutatedDeviceTemplate rtt)) m).map fpHeaderProj := by
  intro l
  induction l with
  | nil => intro _ n m; rfl
  | cons dt rest ih =>
    intro hsub n m
    have hb := dtBuckets_mutated rtt dt
      (hsub dt (List.mem_cons_self dt rest)) hr2 hr3
    have hsys : (dtBuckets rtt (mutatedDeviceTemplate rtt dt)).sys =
      (dtBuckets rtt dt).sys := congrArg (fun q => q.1) hb
    have hoth : (dtBuckets rtt (mutatedDeviceTemplate rtt dt)).oth =
      (dtBuckets rtt dt).oth := congrArg (fun q => q.2.1) hb
    have hsrv : (dtBuckets rtt (mutatedDeviceTemplate rtt dt)).srv =
      (dtBuckets rtt dt).srv := congrArg (fun q => q.2.2.1) hb
    have htrp : (dtBuckets rtt (mutatedDeviceTemplate rtt dt)).trp =
      (dtBuckets rtt dt).trp := congrArg (fun q => q.2.2.2) hb
    have ihr := ih (fun d hd => hsub d (List.mem_cons_of_mem dt hd)) (n + 4) (m + 4)
    show (dtProfiles rtt dt n ++ dtsProfiles rtt rest (n + 4)).map fpHeaderProj =
      (dtProfiles rtt (mutatedDeviceTemplate rtt dt) m ++
        dtsProfiles rtt (rest.map (mutatedDeviceTemplate rtt)) (m + 4)).map fpHeaderProj
    rw [List.map_append, List.map_append, ihr]
    congr 1
    simp only [dtProfiles, List.map_cons, List.map_nil, fpHeaderProj,
      fpSystemOf, fpOtherOf, fpServiceOf, fpTransportOf]
    rw [hsys, hoth, hsrv, htrp]

/-- C8 (amended): two successive `transform` runs on the same config state
produce feature profiles with identical type tags and subelement sets —
ignoring the freshly generated origin identifiers — provided no general
template carries sub-templates (and the `cisco_vpn` resolver keeps
sub-templates and resolves to a non-`cisco_vpn` type, as the real one
does); without that proviso the first run's in-place stripping of
sub-templates makes the second run differ (see the counterexample). -/
theorem transform_bucketing_stable
    (cpft : FeatureTemplateInformation → Except String ServiceParcelClass)
    (cvt : PolicyListInfo → Except String ServiceParcelClass)
    (rtt : GeneralTemplateT → GeneralTemplateT)
    (mergeP : UX2Config → UX2Config) (ux1 : UX1Config) (f1 f2 : Nat)
    (out1 out2 : UX2Config) (ux1b ux1c : UX1Config) (n1 n2 : Nat)
    (hsub : ∀ dt ∈ ux1.templates.device_templates,
      ∀ t ∈ dt.general_templates, t.subTemplates = [])
    (hr2 : ∀ t, (rtt t).subTemplates = t.subTemplates)
    (hr3 : ∀ t, (rtt t).templateType ≠ "cisco_vpn")
    (hm1 : ∀ u, (mergeP u).feature_profiles = u.feature_profiles)
    (hm2 : ∀ u, (mergeP u).config_groups = u.config_groups)
    (h1 : transform cpft cvt rtt mergeP ux1 f1 = Except.ok (out1, ux1b, n1))
    (h2 : transform cpft cvt rtt mergeP ux1b f2 = Except.ok (out2, ux1c, n2)) :
    out1.feature_profiles.map fpHeaderProj =
      out2.feature_profiles.map fpHeaderProj := by
  obtain ⟨hfp1, _, hdts1, _, _⟩ := transform_ok_spec cpft cvt rtt mergeP ux1 f1
    out1 ux1b n1 hm1 hm2 h1
  obtain ⟨hfp2, _, _, _, _⟩ := transform_ok_spec cpft cvt rtt mergeP ux1b f2
    out2 ux1c n2 hm1 hm2 h2
  rw [hfp1, hfp2, hdts1]
  exact dtsProfiles_proj_stable rtt hr2 hr3
    ux1.templates.device_templates hsub f1 f2

/-- Witness for C8 (amended): a config with a childless `cisco_vpn` node and
a childless logging node buckets identically across two runs. -/
theorem transform_bucketing_stable_witness :
    (∀ dt ∈ ux1Flat.templates.device_templates,
      ∀ t ∈ dt.general_templates, t.subTemplates = []) ∧
    (∀ t, (rttResolve t).subTemplates = t.subTemplates) ∧
    (∀ t, (rttResolve t).templateType ≠ "cisco_vpn") ∧
    (∃ out1 ux1b n1 out2 ux1c n2,
      transform cpftOkAaa cvtOkColor rttResolve id ux1Flat 0 =
        Except.ok (out1, ux1b, n1) ∧
      transform cpftOkAaa cvtOkColor rttResolve id ux1b 50 =
        Except.ok (out2, ux1c, n2) ∧
      out1.feature_profiles.map fpHeaderProj =
        out2.feature_profiles.map fpHeaderProj) := by
  have hsub : ∀ dt ∈ ux1Flat.templates.device_templates,
      ∀ t ∈ dt.general_templates, t.subTemplates = [] := by
    intro dt hdt t ht
    have hdt' : dt = dtFlat := by simpa [ux1Flat] using hdt
    subst hdt'
    have ht' : t = gtVpn ∨ t = gtLog := by simpa [dtFlat] using ht
    rcases ht' with rfl | rfl <;> rfl
  refine ⟨hsub, fun t => rfl, ?_, ?_⟩
  · intro t
    show CISCO_VPN_TRANSPORT_AND_MANAGEMENT ≠ "cisco_vpn"
    decide
  · refine ⟨_, _, _, _, _, _, rfl, rfl, ?_⟩
    exact transform_bucketing_stable cpftOkAaa cvtOkColor rttResolve id
      ux1Flat 0 50 _ _ _ _ _ _ hsub (fun t => rfl)
      (fun t => by
        show CISCO_VPN_TRANSPORT_AND_MANAGEMENT ≠ "cisco_vpn"
        decide)
      (fun u => rfl) (fun u => rfl) rfl rfl
